import Mathlib

/-!
Avatar streaming session controller and frame compositor.

A shallow embedding of `src/services/heygenService.js` (class `HeyGenService`),
of the green-screen effect of `src/components/ChatWidget/AvatarDisplay.jsx` and
of `parseN8nMessages` of `src/services/chatService.js`.

* Pixel data (`ImageData.data`, a `Uint8ClampedArray`) is a `List Nat` of
  channel values laid out R, G, B, A.
* The service object is the record `Service`; the world around it (requests
  sent, events emitted, listener invocations, suspended `async` calls and
  settled promises) is the record `World`.
* An `async` method is cut at its `await`s: the synchronous segment up to the
  first `await` is the function named after the method, every continuation is
  a `resume…` function, and `step` plays one scheduler turn.
* Console output is not modelled.
-/

namespace AvatarDisplay

/-- The body of the `for (let i = 0; i < data.length; i += 4)` loop of
`processFrame`, walking the buffer four channels at a time: `r = data[i]`,
`g = data[i + 1]`, `b = data[i + 2]`, and `data[i + 3] = 0` when
`g > 90 && r < 90 && b < 90`.  A trailing group shorter than four channels has
no `data[i + 3]` slot, so the store is dropped and the group is left as is. -/
def removeGreen : List Nat → List Nat
  | r :: g :: b :: a :: rest =>
      let isGreen := decide (g > 90) && decide (r < 90) && decide (b < 90)
      r :: g :: b :: (if isGreen then 0 else a) :: removeGreen rest
  | rest => rest

/-- The video element as `processFrame` sees it: its playback flags and the
pixels `drawImage` + `getImageData` deliver for the current frame. -/
structure Video where
  paused : Bool
  ended : Bool
  frame : List Nat
  deriving Repr, DecidableEq

/-- State touched by `processFrame`: the canvas pixels and the number of
`requestAnimationFrame` calls made so far. -/
structure Canvas where
  pixels : List Nat
  scheduled : Nat
  deriving Repr, DecidableEq

/-- One call of `processFrame`: when the video is neither paused nor ended the
frame is drawn, read back, passed through the green removal and written with
`putImageData`; in every case the next frame is requested. -/
def processFrame (video : Video) (canvas : Canvas) : Canvas :=
  let canvas1 :=
    if !video.paused && !video.ended then
      { canvas with pixels := removeGreen video.frame }
    else canvas
  { canvas1 with scheduled := canvas1.scheduled + 1 }

/-! ## The green-screen effect around `processFrame` -/

/-- Everything the second `useEffect` of `AvatarDisplay` (lines 89-146) reads
and writes: the video with its intrinsic size and `readyState`, the canvas with
its size, `animationFrameRef.current`, the animation-frame callbacks the
browser holds (by handle), the next handle the browser hands out, the number
of `loadedmetadata` listeners added to the video, and the number of
`processFrame` calls made so far. -/
structure Compositor where
  video : Video
  videoWidth : Nat
  videoHeight : Nat
  readyState : Nat
  canvas : Canvas
  width : Nat
  height : Nat
  animationFrameRef : Option Nat
  requests : List Nat
  nextHandle : Nat
  metadataListeners : Nat
  frames : Nat
  deriving Repr, DecidableEq

/-- The component right after mounting: nothing scheduled, the ref unset; the
browser numbers animation-frame requests from 1. -/
def Compositor.mount (video : Video) (videoWidth videoHeight readyState : Nat) : Compositor :=
  { video := video, videoWidth := videoWidth, videoHeight := videoHeight,
    readyState := readyState, canvas := { pixels := [], scheduled := 0 },
    width := 0, height := 0, animationFrameRef := none, requests := [],
    nextHandle := 1, metadataListeners := 0, frames := 0 }

/-- The closure `setupCanvas` (lines 97-100); assigning a canvas dimension
clears its bitmap. -/
def setupCanvas (c : Compositor) : Compositor :=
  { c with
    width := c.videoWidth
    height := c.videoHeight
    canvas := { c.canvas with pixels := List.replicate (4 * c.videoWidth * c.videoHeight) 0 } }

/-- The closure `processFrame` (lines 103-128) as the loop runs it: the pass
over the current frame, then
`animationFrameRef.current = requestAnimationFrame(processFrame)`. -/
def frame (c : Compositor) : Compositor :=
  { c with
    canvas := processFrame c.video c.canvas
    frames := c.frames + 1
    animationFrameRef := some c.nextHandle
    requests := c.requests ++ [c.nextHandle]
    nextHandle := c.nextHandle + 1 }

/-- The body of the effect (lines 130-139) once its guard on `isReady` and the
two refs has passed: start at once when `readyState >= 2`, else add a
`loadedmetadata` listener that will. -/
def greenScreenEffect (c : Compositor) : Compositor :=
  if c.readyState ≥ 2 then frame (setupCanvas c)
  else { c with metadataListeners := c.metadataListeners + 1 }

/-- The browser's `cancelAnimationFrame(handle)`. -/
def cancelAnimationFrame (handle : Nat) (c : Compositor) : Compositor :=
  { c with requests := c.requests.filter (fun h => h != handle) }

/-- The statement both cleanups share (lines 142-144 and 155-157):
`if (animationFrameRef.current) cancelAnimationFrame(animationFrameRef.current)`. -/
def cleanup (c : Compositor) : Compositor :=
  match c.animationFrameRef with
  | none => c
  | some handle => if handle != 0 then cancelAnimationFrame handle c else c

/-- The browser runs the animation-frame callback with this handle, if it is
still waiting. -/
def animationFrame (handle : Nat) (c : Compositor) : Compositor :=
  if handle ∈ c.requests then frame { c with requests := c.requests.erase handle }
  else c

/-- The video fires `loadedmetadata`: every listener the effect added runs
`setupCanvas(); processFrame();` (lines 135-138). -/
def loadedmetadata (c : Compositor) : Compositor :=
  Nat.iterate (fun x => frame (setupCanvas x)) c.metadataListeners
    { c with readyState := max c.readyState 1 }

/-- The source starts delivering frames of another size. -/
def resize (videoWidth videoHeight : Nat) (c : Compositor) : Compositor :=
  { c with videoWidth := videoWidth, videoHeight := videoHeight }

/-- The browser runs the callback that `animationFrameRef.current` names,
`n` refresh opportunities in a row. -/
def refreshes (n : Nat) (c : Compositor) : Compositor :=
  Nat.iterate (fun x => animationFrame (x.animationFrameRef.getD 0) x) n c

/-! ## Sample inputs -/

/-- The effect runs on a video without metadata, the cleanup runs, the
metadata arrives, and the browser then offers `n` refresh opportunities. -/
def startedAfterStop (n : Nat) : Compositor :=
  refreshes n (loadedmetadata (cleanup (greenScreenEffect
    (Compositor.mount { paused := false, ended := false, frame := [] } 640 480 0))))

/-- The effect starts the loop at once on a 640 by 480 source, the source
switches to 1280 by 720, and the next iteration runs. -/
def resizedWhileRunning : Compositor :=
  animationFrame 1 (resize 1280 720 (greenScreenEffect
    (Compositor.mount { paused := false, ended := false, frame := [] } 640 480 4)))

/-- A playing video whose frame holds a red-ish pixel and a green one. -/
def playingVideo : Video :=
  { paused := false, ended := false, frame := [200, 50, 50, 255, 10, 200, 10, 255] }

/-- A canvas nothing has been drawn on. -/
def blankCanvas : Canvas := { pixels := [], scheduled := 0 }

end AvatarDisplay

namespace HeyGenService

/-! ## Values -/

/-- JavaScript values as far as the service inspects them. -/
inductive Json where
  | undefined
  | null
  | bool (b : Bool)
  | num (n : Int)
  | str (s : String)
  | arr (items : List Json)
  | obj (fields : List (String × Json))
  deriving Repr, Inhabited

mutual
/-- The string conversion `String(v)` applied by `new Error(v)`. -/
def Json.toStr : Json → String
  | .undefined => "undefined"
  | .null => "null"
  | .bool b => if b then "true" else "false"
  | .num n => toString n
  | .str s => s
  | .arr items => Json.joinStr items
  | .obj _ => "[object Object]"
/-- The conversion `Array.prototype.join` performs on the elements. -/
def Json.joinStr : List Json → String
  | [] => ""
  | [x] => Json.elemStr x
  | x :: y :: rest => Json.elemStr x ++ "," ++ Json.joinStr (y :: rest)
/-- One element inside `join`: `null` and `undefined` give the empty string. -/
def Json.elemStr : Json → String
  | .undefined => ""
  | .null => ""
  | .bool b => if b then "true" else "false"
  | .num n => toString n
  | .str s => s
  | .arr items => Json.joinStr items
  | .obj _ => "[object Object]"
end

/-- JavaScript truthiness, as tested by `&&`, `||` and `if`. -/
def Json.truthy : Json → Bool
  | .undefined => false
  | .null => false
  | .bool b => b
  | .num n => n != 0
  | .str s => s != ""
  | .arr _ => true
  | .obj _ => true

/-- Property read `fields[key]` on an object literal. -/
def objGet (fields : List (String × Json)) (key : String) : Json :=
  ((fields.find? (fun f => f.1 == key)).map (fun f => f.2)).getD Json.undefined

/-- Property write `fields[key] = v`: an existing key keeps its place. -/
def objSet (fields : List (String × Json)) (key : String) (v : Json) :
    List (String × Json) :=
  if fields.any (fun f => f.1 == key) then
    fields.map (fun f => if f.1 == key then (f.1, v) else f)
  else fields ++ [(key, v)]

/-- Own enumerable properties copied by the spread `...v`. -/
def spreadFields : Json → List (String × Json)
  | .obj fields => fields
  | .arr items => items.enum.map (fun e => (toString e.1, e.2))
  | .str s => s.toList.enum.map (fun e => (toString e.1, Json.str (String.singleton e.2)))
  | _ => []

/-- Identity of a listener function registered with `on`. -/
abbrev CallbackId := Nat

/-- Session information returned by `createStartAvatar`. -/
structure SessionInfo where
  session_id : String
  deriving Repr, DecidableEq

/-- Argument handed to listeners by `emit`. -/
inductive Payload where
  | undefined
  | session (info : SessionInfo)
  | error (message : String)
  | event (detail : String)
  | stream (detail : String)
  deriving Repr, DecidableEq

/-- What a listener does when it is called: it may call back into the event
emitter of the service, and it may throw. -/
inductive Action where
  | callOn (event : String) (callback : CallbackId)
  | callOff (event : String) (callback : CallbackId)
  | raise (message : String)
  deriving Repr, DecidableEq

/-- The code of every listener function. -/
abbrev Behaviour := CallbackId → List Action

/-- The `StreamingAvatar` instance created with `new StreamingAvatar({ token })`. -/
structure Avatar where
  token : Json
  listening : Bool
  deriving Repr

/-- The `<video>` element handed to `setVideoElement`. -/
structure VideoElement where
  id : Nat
  srcObject : Option String
  playCalls : Nat
  deriving Repr, DecidableEq

/-- Fields of `HeyGenService` set up by its constructor. -/
structure Service where
  avatar : Option Avatar
  sessionData : Option SessionInfo
  isInitialized : Bool
  isInitializing : Bool
  isSpeaking : Bool
  videoElement : Option VideoElement
  accessToken : Option Json
  listeners : List (String × List CallbackId)
  deriving Repr

/-- The constructor of `HeyGenService`. -/
def Service.new : Service :=
  { avatar := none, sessionData := none, isInitialized := false,
    isInitializing := false, isSpeaking := false, videoElement := none,
    accessToken := none, listeners := [] }

/-! ## Event emitter -/

/-- `Map.prototype.get` on `this.listeners`. -/
def listenersGet (listeners : List (String × List CallbackId)) (event : String) :
    Option (List CallbackId) :=
  (listeners.find? (fun e => e.1 == event)).map (fun e => e.2)

/-- `Map.prototype.set` on `this.listeners`: an existing key keeps its place,
a new key goes last. -/
def listenersSet (listeners : List (String × List CallbackId)) (event : String)
    (callbacks : List CallbackId) : List (String × List CallbackId) :=
  if (listenersGet listeners event).isSome then
    listeners.map (fun e => if e.1 == event then (e.1, callbacks) else e)
  else listeners ++ [(event, callbacks)]

/-- Method `on(event, callback)` (`on` is reserved in Lean). -/
def onEvent (event : String) (callback : CallbackId) (s : Service) : Service :=
  let listeners1 :=
    if (listenersGet s.listeners event).isSome then s.listeners
    else listenersSet s.listeners event []
  let callbacks := (listenersGet listeners1 event).getD []
  { s with listeners := listenersSet listeners1 event (callbacks ++ [callback]) }

/-- Method `off(event, callback)`: `indexOf` followed by `splice(index, 1)`. -/
def offEvent (event : String) (callback : CallbackId) (s : Service) : Service :=
  match listenersGet s.listeners event with
  | none => s
  | some callbacks =>
      let index := callbacks.indexOf callback
      if index < callbacks.length then
        { s with listeners := listenersSet s.listeners event (callbacks.eraseIdx index) }
      else s

/-! ## The world around the service -/

/-- Requests the service sends out: the token `fetch` and the SDK commands. -/
inductive Request where
  | fetchToken
  | createStartAvatar (avatar : Avatar) (quality : String) (avatarName : String)
      (voiceId : Option String)
  | speak (speakOptions : List (String × Json))
  | interrupt
  | stopAvatar
  deriving Repr

/-- Value a promise of the service is fulfilled with. -/
inductive Value where
  | session (data : Option SessionInfo)
  | bool (b : Bool)
  | undefined
  deriving Repr, DecidableEq

/-- How a promise returned by an `async` method settled. -/
inductive Outcome where
  | resolved (v : Value)
  | rejected (error : String)
  deriving Repr, DecidableEq

/-- Who awaits the promise of an `initializeAvatar()` call: an outside caller
holding promise `p`, or `speak` (line 183) whose own promise is `p`. -/
inductive InitCont where
  | caller (p : Nat)
  | speak (p : Nat) (text : String) (options : List (String × Json))
  deriving Repr

/-- The promise identifier of the outermost call. -/
def InitCont.promise : InitCont → Nat
  | .caller p => p
  | .speak p _ _ => p

/-- Calls of `async` methods parked at an `await` (or at the `setInterval`
of line 65). -/
inductive Suspended where
  | initFetch (k : InitCont)
  | initCreate (k : InitCont)
  | initPoll (k : InitCont)
  | speakSend (p : Nat)
  | interruptSend (p : Nat)
  | stopSend (p : Nat)
  deriving Repr

/-- The service together with everything observable around it. `emitted`
records each call of `emit`, `invoked` each listener call. -/
structure World where
  svc : Service
  outbound : List Request
  emitted : List (String × Payload)
  invoked : List (CallbackId × Payload)
  pending : List Suspended
  settled : List (Nat × Outcome)
  deriving Repr

/-- A fresh service with nothing sent, emitted or pending. -/
def World.start (s : Service) : World :=
  { svc := s, outbound := [], emitted := [], invoked := [], pending := [], settled := [] }

/-- Result of running a piece of synchronous code: the world it leaves and the
exception it threw, if any. -/
structure Completion where
  world : World
  thrown : Option String
  deriving Repr

/-- The statements of a listener run in order; state changes made before a
`throw` stay in place. -/
def runActions : List Action → World → Completion
  | [], w => { world := w, thrown := none }
  | .callOn event cb :: rest, w => runActions rest { w with svc := onEvent event cb w.svc }
  | .callOff event cb :: rest, w => runActions rest { w with svc := offEvent event cb w.svc }
  | .raise message :: _, w => { world := w, thrown := some message }

/-- The call `callback(data)`. -/
def callback (beh : Behaviour) (cb : CallbackId) (data : Payload) (w : World) : Completion :=
  runActions (beh cb) { w with invoked := w.invoked ++ [(cb, data)] }

/-- The statement `try { body } catch (error) { handler }`. -/
def tryCatch (body : Completion) (handler : String → World → Completion) : Completion :=
  match body.thrown with
  | none => body
  | some error => handler error body.world

/-- `Array.prototype.forEach` over the array stored under `event`, with the
arrow function of `emit` as its body. `remaining` counts the indices still to
visit out of the length read when the loop began; index `k` is visited only
if the array, as it is now, still has an element there. The array object
is the one stored in the map: listeners can only reach it through `on` and
`off`, which mutate it in place. -/
def forEach (beh : Behaviour) (event : String) (data : Payload) :
    (remaining : Nat) → (k : Nat) → World → Completion
  | 0, _, w => { world := w, thrown := none }
  | remaining + 1, k, w =>
      match ((listenersGet w.svc.listeners event).getD []).get? k with
      | none => forEach beh event data remaining (k + 1) w
      | some cb =>
          let r := tryCatch (callback beh cb data w)
            (fun _error w1 => { world := w1, thrown := none })
          match r.thrown with
          | some error => { world := r.world, thrown := some error }
          | none => forEach beh event data remaining (k + 1) r.world

/-- Method `emit(event, data)` with its completion. -/
def emitCompletion (beh : Behaviour) (event : String) (data : Payload) (w : World) :
    Completion :=
  let w1 := { w with emitted := w.emitted ++ [(event, data)] }
  match listenersGet w.svc.listeners event with
  | none => { world := w1, thrown := none }
  | some callbacks => forEach beh event data callbacks.length 0 w1

/-- Method `emit(event, data)` as used by the other methods. -/
def emit (beh : Behaviour) (event : String) (data : Payload) (w : World) : World :=
  (emitCompletion beh event data w).world

/-! ## Configuration and SDK constants -/

/-- The `heygen` section of `src/config/chatConfig.js`. -/
structure HeygenConfig where
  avatarId : String
  voiceId : Option String
  quality : String
  taskType : String
  deriving Repr, DecidableEq

/-- The values of `chatConfig.heygen` (lines 55-62). -/
def chatConfig.heygen : HeygenConfig :=
  { avatarId := "Katya_ProfessionalLook_public", voiceId := none,
    quality := "high", taskType := "repeat" }

/-- SDK enum member `AvatarQuality.Low`. -/
def AvatarQuality.Low : String := "low"
/-- SDK enum member `AvatarQuality.Medium`. -/
def AvatarQuality.Medium : String := "medium"
/-- SDK enum member `AvatarQuality.High`. -/
def AvatarQuality.High : String := "high"
/-- SDK enum member `TaskType.TALK`. -/
def TaskType.TALK : Json := .str "talk"
/-- SDK enum member `TaskType.REPEAT`. -/
def TaskType.REPEAT : Json := .str "repeat"
/-- SDK enum member `TaskMode.SYNC`. -/
def TaskMode.SYNC : Json := .str "sync"

/-- Method `getQualityLevel()`: the `qualityMap` lookup with its
`|| AvatarQuality.Medium` fallback. -/
def getQualityLevel : String :=
  if chatConfig.heygen.quality == "low" then AvatarQuality.Low
  else if chatConfig.heygen.quality == "medium" then AvatarQuality.Medium
  else if chatConfig.heygen.quality == "high" then AvatarQuality.High
  else AvatarQuality.Medium

/-! ## Token acquisition -/

/-- How the `fetch` of line 25 and the `response.json()` of line 36 turn out:
`fetch` rejects, or a response arrives with its `ok` flag, status and the
outcome of parsing its body. -/
inductive FetchResult where
  | failed (error : String)
  | response (ok : Bool) (status : Nat) (body : Except String Json)

/-- Property read `v[key]` for the keys the service reads (`data`, `token`,
`message`); only object literals carry them. -/
def getProp (v : Json) (key : String) : Json :=
  match v with
  | .obj fields => objGet fields key
  | _ => Json.undefined

/-- The test `Array.isArray(result) ? result[0] : result` of line 39. -/
def unwrapResult (result : Json) : Json :=
  match result with
  | .arr items => items.headD Json.undefined
  | other => other

/-- Is the value `undefined` or `null`, so that reading a property off it
throws? -/
def Json.isNullish : Json → Bool
  | .undefined => true
  | .null => true
  | _ => false

/-- Method `getAccessTokenFromN8n()` from the point where the `fetch` has
settled. The `catch` of line 48 rethrows, so every failure surfaces as the
error of the result. Reading `data.data` off `undefined` or `null` is the
engine-raised `TypeError`. -/
def getAccessTokenFromN8n (r : FetchResult) (s : Service) : Service × Except String Json :=
  match r with
  | .failed error => (s, .error error)
  | .response ok status body =>
      if !ok then (s, .error ("Failed to get token: " ++ toString status))
      else
        match body with
        | .error error => (s, .error error)
        | .ok result =>
            let data := unwrapResult result
            if data.isNullish then (s, .error "TypeError")
            else if (getProp data "data").truthy
                && (getProp (getProp data "data") "token").truthy then
              ({ s with accessToken := some (getProp (getProp data "data") "token") },
                .ok (getProp (getProp data "data") "token"))
            else
              (s, .error (if (getProp data "message").truthy
                then (getProp data "message").toStr
                else "Failed to get access token"))

/-! ## Session controller -/

/-- Method `isReady()`. -/
def isReady (s : Service) : Bool :=
  s.isInitialized && s.avatar.isSome && s.sessionData.isSome

/-- Method `setupEventListeners()`: attaches the five handlers to the current
avatar instance, or returns at once when there is none. -/
def setupEventListeners (s : Service) : Service :=
  match s.avatar with
  | none => s
  | some a => { s with avatar := some { a with listening := true } }

/-- The object literal `speakOptions` built by `speak` (lines 190-204). -/
def speakOptions (text : String) (options : List (String × Json)) : List (String × Json) :=
  let taskType :=
    if chatConfig.heygen.taskType == "talk" then TaskType.TALK else TaskType.REPEAT
  let literal := options.foldl (fun acc f => objSet acc f.1 f.2)
    [("text", Json.str text), ("task_type", taskType), ("taskMode", TaskMode.SYNC)]
  if (objGet options "emotion").truthy then
    objSet literal "voice"
      (Json.obj (objSet (spreadFields (objGet literal "voice")) "emotion"
        (objGet options "emotion")))
  else literal

/-- The `catch` block of `speak` (lines 210-214). -/
def speakCatch (beh : Behaviour) (p : Nat) (error : String) (w : World) : World :=
  let w1 := emit beh "avatar:error" (Payload.error error) w
  { w1 with settled := w1.settled ++ [(p, Outcome.resolved (Value.bool false))] }

/-- The `try` block of `speak` up to its `await this.avatar.speak(...)`;
calling `speak` on a missing avatar is the engine-raised `TypeError`, which
the `catch` receives. -/
def speakBody (beh : Behaviour) (p : Nat) (text : String) (options : List (String × Json))
    (w : World) : World :=
  match w.svc.avatar with
  | none => speakCatch beh p "TypeError" w
  | some _ =>
      { w with
        outbound := w.outbound ++ [Request.speak (speakOptions text options)]
        pending := w.pending ++ [Suspended.speakSend p] }

/-- The promise of an `initializeAvatar()` call settles: an outside caller
gets the outcome; `speak`, which awaits it on line 183 outside its `try`,
goes on into the `try` block when it resolved and rejects when it rejected. -/
def settleInit (beh : Behaviour) (k : InitCont) (o : Outcome) (w : World) : World :=
  match k with
  | .caller p => { w with settled := w.settled ++ [(p, o)] }
  | .speak p text options =>
      match o with
      | .rejected error => { w with settled := w.settled ++ [(p, Outcome.rejected error)] }
      | .resolved _ => speakBody beh p text options w

/-- Method `initializeAvatar()` up to its first `await` (lines 55-78). -/
def initializeAvatar (beh : Behaviour) (k : InitCont) (w : World) : World :=
  if w.svc.isInitialized then
    settleInit beh k (Outcome.resolved (Value.session w.svc.sessionData)) w
  else if w.svc.isInitializing then
    { w with pending := w.pending ++ [Suspended.initPoll k] }
  else
    { w with
      svc := { w.svc with isInitializing := true }
      outbound := w.outbound ++ [Request.fetchToken]
      pending := w.pending ++ [Suspended.initFetch k] }

/-- The call `this.avatar.createStartAvatar({...})` of lines 92-98 on avatar
`a`; `voiceId || undefined` drops an empty voice id. -/
def createStartAvatarRequest (a : Avatar) : Request :=
  Request.createStartAvatar a getQualityLevel chatConfig.heygen.avatarId
    (chatConfig.heygen.voiceId.filter (fun v => v != ""))

/-- The `catch` block of `initializeAvatar` (lines 108-113). -/
def initCatch (beh : Behaviour) (k : InitCont) (error : String) (w : World) : World :=
  let w1 := { w with svc := { w.svc with isInitializing := false } }
  let w2 := emit beh "avatar:error" (Payload.error error) w1
  settleInit beh k (Outcome.rejected error) w2

/-- `initializeAvatar` from the token `fetch` settling to the `await` of
`createStartAvatar` (lines 78-98). -/
def resumeInitFetch (beh : Behaviour) (k : InitCont) (r : FetchResult) (w : World) : World :=
  match getAccessTokenFromN8n r w.svc with
  | (s1, .error error) => initCatch beh k error { w with svc := s1 }
  | (s1, .ok token) =>
      let s2 := setupEventListeners
        { s1 with avatar := some { token := token, listening := false } }
      match s2.avatar with
      | none => initCatch beh k "TypeError" { w with svc := s2 }
      | some a =>
          { w with
            svc := s2
            outbound := w.outbound ++ [createStartAvatarRequest a]
            pending := w.pending ++ [Suspended.initCreate k] }

/-- `initializeAvatar` from `createStartAvatar` settling to its end
(lines 100-113). -/
def resumeInitCreate (beh : Behaviour) (k : InitCont) (r : Except String SessionInfo)
    (w : World) : World :=
  match r with
  | .error error => initCatch beh k error w
  | .ok sessionInfo =>
      let w1 := { w with svc := { w.svc with
        sessionData := some sessionInfo, isInitialized := true, isInitializing := false } }
      let w2 := emit beh "avatar:initialized" (Payload.session sessionInfo) w1
      settleInit beh k (Outcome.resolved (Value.session (some sessionInfo))) w2

/-- One firing of the `setInterval` callback of lines 65-70; `none` when the
interval stays armed. -/
def pollTick (beh : Behaviour) (k : InitCont) (w : World) : Option World :=
  if w.svc.isInitialized then
    some (settleInit beh k (Outcome.resolved (Value.session w.svc.sessionData)) w)
  else none

/-- `speak` from `this.avatar.speak(...)` settling to its end (lines 206-214). -/
def resumeSpeakSend (beh : Behaviour) (p : Nat) (r : Except String Unit) (w : World) : World :=
  match r with
  | .ok _ => { w with settled := w.settled ++ [(p, Outcome.resolved (Value.bool true))] }
  | .error error => speakCatch beh p error w

/-- Method `speak(text, options)` up to its first `await` (lines 180-206). -/
def speak (beh : Behaviour) (p : Nat) (text : String) (options : List (String × Json))
    (w : World) : World :=
  if !w.svc.isInitialized || w.svc.avatar.isNone then
    initializeAvatar beh (InitCont.speak p text options) w
  else speakBody beh p text options w

/-- What the SDK hands over as the stream: a `MediaStream`, or something that
is not one. -/
inductive StreamValue where
  | mediaStream (id : String)
  | other (description : String)
  deriving Repr, DecidableEq

/-- The `STREAM_READY` event as far as the handler reads it: its `detail` and
`stream` properties, absent or holding an object. -/
structure StreamReadyEvent where
  detail : Option StreamValue
  stream : Option StreamValue
  deriving Repr, DecidableEq

/-- How a stream value shows in the payload of `stream:ready`. -/
def StreamValue.label : StreamValue → String
  | .mediaStream id => id
  | .other description => description

/-- Handler of `StreamingEvents.STREAM_READY` (lines 132-149):
`event.detail || event.stream || event`, attached to the bound video element
and played when it is a `MediaStream`, then emitted as `stream:ready`. -/
def onStreamReady (beh : Behaviour) (event : StreamReadyEvent) (w : World) : World :=
  let stream := match event.detail with
    | some d => d
    | none => match event.stream with
      | some st => st
      | none => StreamValue.other "event"
  let s1 := match stream, w.svc.videoElement with
    | .mediaStream id, some v =>
        let playing := { v with srcObject := some id, playCalls := v.playCalls + 1 }
        { w.svc with videoElement := some playing }
    | _, _ => w.svc
  emit beh "stream:ready" (Payload.stream stream.label) { w with svc := s1 }

/-- Handler of `StreamingEvents.AVATAR_START_TALKING` (lines 152-156). -/
def onAvatarStartTalking (beh : Behaviour) (event : String) (w : World) : World :=
  emit beh "avatar:start-talking" (Payload.event event)
    { w with svc := { w.svc with isSpeaking := true } }

/-- Handler of `StreamingEvents.AVATAR_STOP_TALKING` (lines 159-163). -/
def onAvatarStopTalking (beh : Behaviour) (event : String) (w : World) : World :=
  emit beh "avatar:stop-talking" (Payload.event event)
    { w with svc := { w.svc with isSpeaking := false } }

/-- Handler of `StreamingEvents.STREAM_DISCONNECTED` (lines 166-170). -/
def onStreamDisconnected (beh : Behaviour) (event : String) (w : World) : World :=
  emit beh "stream:disconnected" (Payload.event event)
    { w with svc := { w.svc with isInitialized := false } }

/-- Handler of the avatar `error` event (lines 173-176). -/
def onAvatarError (beh : Behaviour) (error : String) (w : World) : World :=
  emit beh "avatar:error" (Payload.error error) w

/-- Method `interrupt()` up to its `await` (lines 218-222): it returns at
once without an avatar or when the avatar is not speaking. -/
def interrupt (p : Nat) (w : World) : World :=
  if w.svc.avatar.isNone || !w.svc.isSpeaking then
    { w with settled := w.settled ++ [(p, Outcome.resolved Value.undefined)] }
  else
    { w with
      outbound := w.outbound ++ [Request.interrupt]
      pending := w.pending ++ [Suspended.interruptSend p] }

/-- `interrupt` from `this.avatar.interrupt()` settling to its end
(lines 222-228); the `catch` only logs. -/
def resumeInterrupt (beh : Behaviour) (p : Nat) (r : Except String Unit) (w : World) : World :=
  match r with
  | .ok _ =>
      let w1 := emit beh "avatar:interrupted" Payload.undefined
        { w with svc := { w.svc with isSpeaking := false } }
      { w1 with settled := w1.settled ++ [(p, Outcome.resolved Value.undefined)] }
  | .error _ => { w with settled := w.settled ++ [(p, Outcome.resolved Value.undefined)] }

/-- Method `setVideoElement(element)`. -/
def setVideoElement (element : VideoElement) (s : Service) : Service :=
  { s with videoElement := some element }

/-- The cleanup of `stopAvatar` after the SDK call (lines 247-260), to the
end of the method. -/
def stopCleanup (beh : Behaviour) (p : Nat) (w : World) : World :=
  let s1 := { w.svc with
    isInitialized := false, isInitializing := false, isSpeaking := false,
    sessionData := none }
  let s2 := { s1 with
    videoElement := s1.videoElement.map (fun v => { v with srcObject := none }) }
  let w1 := emit beh "avatar:stopped" Payload.undefined { w with svc := s2 }
  { w1 with settled := w1.settled ++ [(p, Outcome.resolved Value.undefined)] }

/-- Method `stopAvatar()` up to its `await` (lines 238-245): it returns at
once when `isInitialized` is false; without an avatar instance the cleanup
follows with no SDK call. -/
def stopAvatar (beh : Behaviour) (p : Nat) (w : World) : World :=
  if !w.svc.isInitialized then
    { w with settled := w.settled ++ [(p, Outcome.resolved Value.undefined)] }
  else
    match w.svc.avatar with
    | some _ =>
        { w with
          outbound := w.outbound ++ [Request.stopAvatar]
          pending := w.pending ++ [Suspended.stopSend p] }
    | none => stopCleanup beh p w

/-- `stopAvatar` from `this.avatar.stopAvatar()` settling to its end; the
`catch` of line 261 only logs, so a refused stop skips the cleanup. -/
def resumeStop (beh : Behaviour) (p : Nat) (r : Except String Unit) (w : World) : World :=
  match r with
  | .ok _ => stopCleanup beh p w
  | .error _ => { w with settled := w.settled ++ [(p, Outcome.resolved Value.undefined)] }

/-! ## Scheduler turns -/

/-- Is this the `initializeAvatar` call of promise `p` parked on the token fetch? -/
def isInitFetch (p : Nat) : Suspended → Bool
  | .initFetch k => k.promise == p
  | _ => false

/-- Is this the `initializeAvatar` call of promise `p` parked on `createStartAvatar`? -/
def isInitCreate (p : Nat) : Suspended → Bool
  | .initCreate k => k.promise == p
  | _ => false

/-- Is this the polling `initializeAvatar` call of promise `p`? -/
def isInitPoll (p : Nat) : Suspended → Bool
  | .initPoll k => k.promise == p
  | _ => false

/-- Is this the `speak` call of promise `p` parked on `avatar.speak`? -/
def isSpeakSend (p : Nat) : Suspended → Bool
  | .speakSend q => q == p
  | _ => false

/-- Is this the `interrupt` call of promise `p` parked on `avatar.interrupt`? -/
def isInterruptSend (p : Nat) : Suspended → Bool
  | .interruptSend q => q == p
  | _ => false

/-- Is this the `stopAvatar` call of promise `p` parked on `avatar.stopAvatar`? -/
def isStopSend (p : Nat) : Suspended → Bool
  | .stopSend q => q == p
  | _ => false

/-- One turn of the event loop: a method call from outside, the settling of
a request a call is parked on, a timer firing, or a provider event. The
`fetch` and the `response.json()` of the token request settle in one turn. -/
inductive Step where
  | initializeAvatar (p : Nat)
  | speak (p : Nat) (text : String) (options : List (String × Json))
  | fetchSettled (p : Nat) (r : FetchResult)
  | createSettled (p : Nat) (r : Except String SessionInfo)
  | speakSettled (p : Nat) (r : Except String Unit)
  | timer (p : Nat)
  | avatarStartTalking (event : String)
  | avatarStopTalking (event : String)
  | streamDisconnected (event : String)
  | avatarError (error : String)
  | interrupt (p : Nat)
  | interruptSettled (p : Nat) (r : Except String Unit)
  | stopAvatar (p : Nat)
  | stopSettled (p : Nat) (r : Except String Unit)
  | setVideoElement (element : VideoElement)
  | streamReady (event : StreamReadyEvent)

/-- The effect of one turn. A settling that no parked call waits for, and a
timer that is not armed, change nothing. -/
def step (beh : Behaviour) : Step → World → World
  | .initializeAvatar p, w => initializeAvatar beh (InitCont.caller p) w
  | .speak p text options, w => speak beh p text options w
  | .fetchSettled p r, w =>
      match w.pending.find? (isInitFetch p) with
      | some (.initFetch k) =>
          resumeInitFetch beh k r { w with pending := w.pending.eraseP (isInitFetch p) }
      | _ => w
  | .createSettled p r, w =>
      match w.pending.find? (isInitCreate p) with
      | some (.initCreate k) =>
          resumeInitCreate beh k r { w with pending := w.pending.eraseP (isInitCreate p) }
      | _ => w
  | .speakSettled p r, w =>
      match w.pending.find? (isSpeakSend p) with
      | some (.speakSend q) =>
          resumeSpeakSend beh q r { w with pending := w.pending.eraseP (isSpeakSend p) }
      | _ => w
  | .timer p, w =>
      match w.pending.find? (isInitPoll p) with
      | some (.initPoll k) =>
          (pollTick beh k { w with pending := w.pending.eraseP (isInitPoll p) }).getD w
      | _ => w
  | .avatarStartTalking event, w => onAvatarStartTalking beh event w
  | .avatarStopTalking event, w => onAvatarStopTalking beh event w
  | .streamDisconnected event, w => onStreamDisconnected beh event w
  | .avatarError error, w => onAvatarError beh error w
  | .interrupt p, w => interrupt p w
  | .interruptSettled p r, w =>
      match w.pending.find? (isInterruptSend p) with
      | some (.interruptSend q) =>
          resumeInterrupt beh q r { w with pending := w.pending.eraseP (isInterruptSend p) }
      | _ => w
  | .stopAvatar p, w => stopAvatar beh p w
  | .stopSettled p r, w =>
      match w.pending.find? (isStopSend p) with
      | some (.stopSend q) =>
          resumeStop beh q r { w with pending := w.pending.eraseP (isStopSend p) }
      | _ => w
  | .setVideoElement element, w => { w with svc := setVideoElement element w.svc }
  | .streamReady event, w => onStreamReady beh event w

/-- A sequence of turns, played in order. -/
def run (beh : Behaviour) (steps : List Step) (w : World) : World :=
  steps.foldl (fun acc st => step beh st acc) w

/-- The outcome recorded for promise `p`, if it has settled. -/
def outcomeOf (w : World) (p : Nat) : Option Outcome :=
  (w.settled.find? (fun e => e.1 == p)).map (fun e => e.2)

/-! ## Vocabulary of the statements -/

/-- The callbacks a listener body registers for `event` before it returns or
throws. -/
def registered (event : String) : List Action → List CallbackId
  | [] => []
  | .callOn e c :: rest =>
      if e = event then c :: registered event rest else registered event rest
  | .callOff _ _ :: rest => registered event rest
  | .raise _ :: _ => []

/-- No listener body calls `off` for `event`. -/
def NoOff (beh : Behaviour) (event : String) : Prop :=
  ∀ cb c, Action.callOff event c ∉ beh cb

/-- The part of the world the event emitter cannot touch: everything but the
listener map and the two logs of emissions and listener calls. -/
def World.rest (w : World) : World :=
  { w with svc := { w.svc with listeners := [] }, invoked := [], emitted := [] }

/-! ## Sample inputs -/

/-- A listener map holding listeners 1 and 2, in that order, for `stream:ready`. -/
def twoListeners : World :=
  World.start { Service.new with listeners := [("stream:ready", [1, 2])] }

/-- Listener 1 unregisters itself; every other listener does nothing. -/
def selfRemoving : Behaviour :=
  fun cb => if cb = 1 then [Action.callOff "stream:ready" 1] else []

/-- Listener 2 registers listener 7 and then throws; the others do nothing. -/
def registersThenThrows : Behaviour :=
  fun cb => if cb = 2 then [Action.callOn "stream:ready" 7, Action.raise "boom"] else []

/-- A service in `Ready`: initialised, with an avatar instance and session data. -/
def readyService : Service :=
  { Service.new with
    avatar := some { token := Json.str "tok", listening := true }
    sessionData := some { session_id := "s-1" }
    isInitialized := true
    listeners := [("avatar:error", [1, 2])] }

/-- Listeners that do nothing. -/
def quiet : Behaviour := fun _ => []

/-- Listener 1 throws at once; the others do nothing. -/
def firstThrows : Behaviour :=
  fun cb => if cb = 1 then [Action.raise "boom"] else []

/-- A response carrying the token `tok`. -/
def tokenResponse : FetchResult :=
  FetchResult.response true 200
    (Except.ok (Json.obj [("data", Json.obj [("token", Json.str "tok")])]))

/-- The turns of `speak("hello")` on a service without a session whose token
fetch is rejected. -/
def speakWithoutNetwork : World :=
  run quiet [Step.speak 1 "hello" [], Step.fetchSettled 1 (FetchResult.failed "network down")]
    (World.start Service.new)

/-- Caller 1 starts an attempt on a fresh service, caller 2 attaches to it,
the token fetch is rejected, and the polling timer of caller 2 then fires `n`
times. -/
def attachedToFailedAttempt (n : Nat) : World :=
  run quiet
    ([Step.initializeAvatar 1, Step.initializeAvatar 2,
      Step.fetchSettled 1 (FetchResult.failed "network down")]
      ++ List.replicate n (Step.timer 2))
    (World.start Service.new)

/-- The ready sample service bound to a video element that plays a stream. -/
def readyWithVideo : Service :=
  { readyService with
    videoElement := some { id := 1, srcObject := some "stream-1", playCalls := 1 } }

/-- The turns of `stopAvatar()` called while an attempt of caller 1 is parked
on the token fetch, followed by the attempt succeeding. -/
def stopWhileInitializing : World :=
  run quiet
    [Step.initializeAvatar 1, Step.stopAvatar 2, Step.fetchSettled 1 tokenResponse,
      Step.createSettled 1 (Except.ok { session_id := "s-1" })]
    (World.start Service.new)

/-- The provider's disconnect event arriving on the ready service with its
video element. -/
def disconnectedWhileReady : World :=
  step quiet (Step.streamDisconnected "closed") (World.start readyWithVideo)

/-- A success response whose nested token is the empty string. -/
def emptyTokenResponse : FetchResult :=
  FetchResult.response true 200
    (Except.ok (Json.obj [("data", Json.obj [("token", Json.str "")])]))

/-- Every listener body only returns or throws: none calls `on` or `off`. -/
def Passive (beh : Behaviour) : Prop :=
  ∀ cb a, a ∈ beh cb → ∃ message, a = Action.raise message

/-- The stream-ready event arrives with a `MediaStream` on the ready service
that has its first video element bound, and the consumer then binds a second
element. -/
def boundAfterStreamReady : World :=
  run quiet
    [Step.streamReady { detail := some (StreamValue.mediaStream "stream-1"), stream := none },
      Step.setVideoElement { id := 2, srcObject := none, playCalls := 0 }]
    (World.start readyWithVideo)

/-- A fresh service is initialised, the avatar starts talking, and the provider
disconnects. -/
def disconnectedWhileSpeaking : World :=
  run quiet
    [Step.initializeAvatar 1, Step.fetchSettled 1 tokenResponse,
      Step.createSettled 1 (Except.ok { session_id := "s-1" }),
      Step.avatarStartTalking "talking", Step.streamDisconnected "closed"]
    (World.start Service.new)

/-- A fresh service is initialised and stopped, and a start-talking signal
arrives afterwards. -/
def talkingAfterStop : World :=
  run quiet
    [Step.initializeAvatar 1, Step.fetchSettled 1 tokenResponse,
      Step.createSettled 1 (Except.ok { session_id := "s-1" }),
      Step.stopAvatar 2, Step.stopSettled 2 (Except.ok ()),
      Step.avatarStartTalking "talking"]
    (World.start Service.new)

/-- Listener 1 unregisters itself and registers listener 7; the others do
nothing. -/
def swapsItself : Behaviour :=
  fun cb => if cb = 1 then [Action.callOff "stream:ready" 1, Action.callOn "stream:ready" 7]
    else []

/-- Listener 1 unregisters itself and then throws; the others do nothing. -/
def removesItselfAndThrows : Behaviour :=
  fun cb => if cb = 1 then [Action.callOff "stream:ready" 1, Action.raise "boom"] else []

/-- Listener 1 unregisters itself from `avatar:error`; the others do nothing. -/
def leavesOnError : Behaviour :=
  fun cb => if cb = 1 then [Action.callOff "avatar:error" 1] else []

/-- A fresh service on which listener 1 was registered twice for
`stream:ready`. -/
def registeredTwice : World :=
  World.start ([1, 1].foldl (fun acc c => onEvent "stream:ready" c acc) Service.new)

/-- Caller 2 attaches to the attempt of caller 1, which succeeds with session
`s-1`; before the polling timer of caller 2 fires, the provider disconnects
and caller 3 initialises again, obtaining session `s-2`. -/
def pollAfterReinit : World :=
  run quiet
    [Step.initializeAvatar 1, Step.initializeAvatar 2, Step.fetchSettled 1 tokenResponse,
      Step.createSettled 1 (Except.ok { session_id := "s-1" }),
      Step.streamDisconnected "closed",
      Step.initializeAvatar 3, Step.fetchSettled 3 tokenResponse,
      Step.createSettled 3 (Except.ok { session_id := "s-2" }),
      Step.timer 2]
    (World.start Service.new)

end HeyGenService

namespace ChatService

open HeyGenService

/-! ## `parseN8nMessages` of `src/services/chatService.js` -/

/-- The reply `parseN8nMessages` falls back to. -/
def fallback : Json := Json.str "Thanks for your message!"

/-- `Object.keys(v)`: the field names of an object, the indices of an array
or a string, nothing for a number or a boolean; `null` and `undefined` throw. -/
def objectKeys : Json → Except String (List String)
  | .undefined => .error "TypeError"
  | .null => .error "TypeError"
  | .obj fields => .ok (fields.map (fun f => f.1))
  | .arr items => .ok ((List.range items.length).map toString)
  | .str s => .ok ((List.range s.toList.length).map toString)
  | _ => .ok []

/-- `key.startsWith('message')`. -/
def startsWithMessage (key : String) : Bool :=
  "message".toList.isPrefixOf key.toList

/-- The order `Array.prototype.sort()` uses without a comparator: strings
compared unit by unit, a proper prefix first (code points stand for the code
units, which agree on the keys considered). -/
def ltUnits : List Char → List Char → Bool
  | [], [] => false
  | [], _ :: _ => true
  | _ :: _, [] => false
  | a :: as, b :: bs =>
      if a.toNat < b.toNat then true
      else if b.toNat < a.toNat then false
      else ltUnits as bs

/-- The call `.sort()` on the message keys. -/
def sortKeys (keys : List String) : List String :=
  keys.insertionSort (fun a b => ltUnits b.toList a.toList = false)

/-- The characters `String.prototype.trim` strips. -/
def isJsWhitespace (c : Char) : Bool :=
  [9, 10, 11, 12, 13, 32, 160, 5760, 8232, 8233, 8239, 8287, 12288, 65279].contains c.toNat
    || (8192 ≤ c.toNat && c.toNat ≤ 8202)

/-- The loop `messageKeys.forEach(...)` (lines 351-356): a truthy content that
is not a string has no `trim` method, which throws. -/
def collectMessages (messageData : Json) : List String → Except String (List Json)
  | [] => .ok []
  | key :: rest =>
      let content := getProp messageData key
      if content.truthy then
        match content with
        | .str text =>
            if !(text.toList.all isJsWhitespace) then
              (collectMessages messageData rest).map (fun messages => content :: messages)
            else collectMessages messageData rest
        | _ => .error "TypeError"
      else collectMessages messageData rest

/-- The `try` block of `parseN8nMessages` (lines 314-365); `jsonParse` is
`JSON.parse`. Reading a property off `null` or `undefined` throws. -/
def parseBody (jsonParse : String → Except String Json) (data : Json) : Except String Json :=
  let responseData0 := match data with
    | .arr (first :: _) => first
    | other => other
  if responseData0.isNullish then .error "TypeError"
  else
    let responseData :=
      if (getProp responseData0 "data").truthy
          && (getProp (getProp responseData0 "data") "split_json").truthy
      then getProp responseData0 "data" else responseData0
    let splitJson := getProp responseData "split_json"
    if !splitJson.truthy then .ok fallback
    else
      let parsed := match splitJson with
        | .str text => jsonParse text
        | other => .ok other
      match parsed with
      | .error error => .error error
      | .ok messageData0 =>
          if messageData0.isNullish then .error "TypeError"
          else
            let messageData :=
              if (getProp messageData0 "content").truthy then getProp messageData0 "content"
              else messageData0
            match objectKeys messageData with
            | .error error => .error error
            | .ok keys =>
                match collectMessages messageData (sortKeys (keys.filter startsWithMessage)) with
                | .error error => .error error
                | .ok [] => .ok fallback
                | .ok [message] => .ok message
                | .ok messages => .ok (Json.arr messages)

/-- Method `parseN8nMessages(data)`: the `catch` of line 366 turns every
exception into the fallback reply. -/
def parseN8nMessages (jsonParse : String → Except String Json) (data : Json) : Json :=
  match parseBody jsonParse data with
  | .ok reply => reply
  | .error _ => fallback

/-! ## Sample inputs -/

/-- A webhook response whose `split_json` holds `message1` to `message10`. -/
def tenMessages : Json :=
  Json.obj [("split_json", Json.obj [
    ("message1", Json.str "one"), ("message2", Json.str "two"),
    ("message3", Json.str "three"), ("message4", Json.str "four"),
    ("message5", Json.str "five"), ("message6", Json.str "six"),
    ("message7", Json.str "seven"), ("message8", Json.str "eight"),
    ("message9", Json.str "nine"), ("message10", Json.str "ten")])]

/-- A webhook response with `message1` and `message2`. -/
def twoMessages : Json :=
  Json.obj [("split_json", Json.obj [
    ("message2", Json.str "two"), ("message1", Json.str "one")])]

end ChatService

/-! Lemmas and theorems. -/

namespace HeyGenService

theorem listenersGet_nil (e : String) : listenersGet [] e = none := rfl

theorem listenersGet_cons (x : String × List CallbackId) (xs : List (String × List CallbackId))
    (e : String) :
    listenersGet (x :: xs) e = if x.1 = e then some x.2 else listenersGet xs e := by
  by_cases h : x.1 = e <;> simp [listenersGet, List.find?_cons, h]

theorem listenersGet_map (ls : List (String × List CallbackId)) (e e' : String)
    (v : List CallbackId) :
    listenersGet (ls.map (fun x => if x.1 == e then (x.1, v) else x)) e' =
      if e' = e then (listenersGet ls e').map (fun _ => v) else listenersGet ls e' := by
  induction ls with
  | nil => simp [listenersGet_nil]
  | cons x xs ih =>
    simp only [List.map_cons, listenersGet_cons, ih]
    by_cases hx : x.1 = e <;> by_cases he : e' = e <;> by_cases hxe : x.1 = e' <;> simp_all

theorem listenersGet_append_single (ls : List (String × List CallbackId)) (e e' : String)
    (v : List CallbackId) :
    listenersGet (ls ++ [(e, v)]) e' =
      (listenersGet ls e').orElse (fun _ => if e = e' then some v else none) := by
  induction ls with
  | nil => simp [listenersGet_nil, listenersGet_cons]
  | cons x xs ih =>
    simp only [List.cons_append, listenersGet_cons, ih]
    by_cases hxe : x.1 = e' <;> simp [hxe]

theorem listenersGet_set (ls : List (String × List CallbackId)) (e e' : String)
    (v : List CallbackId) :
    listenersGet (listenersSet ls e v) e' = if e' = e then some v else listenersGet ls e' := by
  unfold listenersSet
  split
  · rename_i h
    rw [listenersGet_map]
    by_cases he : e' = e
    · subst he
      obtain ⟨c, hc⟩ := Option.isSome_iff_exists.mp h
      simp [hc]
    · simp [he]
  · rename_i h
    rw [listenersGet_append_single]
    by_cases he : e' = e
    · subst he
      simp at h
      simp [h]
    · have : ¬ e = e' := fun x => he x.symm
      simp [he, this]

theorem listenersGet_onEvent (s : Service) (e e' : String) (c : CallbackId) :
    listenersGet (onEvent e c s).listeners e' =
      if e' = e then some ((listenersGet s.listeners e).getD [] ++ [c])
      else listenersGet s.listeners e' := by
  unfold onEvent
  simp only [listenersGet_set]
  by_cases he : e' = e
  · subst he
    simp
    cases h : listenersGet s.listeners e' <;> simp [h, listenersGet_set]
  · simp [he]
    cases h : listenersGet s.listeners e <;> simp [h, listenersGet_set, he]

theorem listenersGet_offEvent_ne (s : Service) (e e' : String) (c : CallbackId) (h : e' ≠ e) :
    listenersGet (offEvent e c s).listeners e' = listenersGet s.listeners e' := by
  unfold offEvent
  split
  · rfl
  · simp only []
    split
    · simp [listenersGet_set, h]
    · rfl


theorem onEvent_frame (e : String) (c : CallbackId) (s : Service) :
    { onEvent e c s with listeners := [] } = { s with listeners := [] } := rfl

theorem offEvent_frame (e : String) (c : CallbackId) (s : Service) :
    { offEvent e c s with listeners := [] } = { s with listeners := [] } := by
  unfold offEvent
  split
  · rfl
  · simp only []
    split <;> rfl

theorem runActions_rest (acts : List Action) (w : World) :
    (runActions acts w).world.rest = w.rest ∧
    (runActions acts w).world.invoked = w.invoked ∧
    (runActions acts w).world.emitted = w.emitted := by
  induction acts generalizing w with
  | nil => simp [runActions]
  | cons a rest ih =>
    cases a with
    | callOn e c =>
      simp only [runActions]
      obtain ⟨h1, h2, h3⟩ := ih { w with svc := onEvent e c w.svc }
      refine ⟨?_, h2, h3⟩
      rw [h1]
      simp only [World.rest, onEvent_frame]
    | callOff e c =>
      simp only [runActions]
      obtain ⟨h1, h2, h3⟩ := ih { w with svc := offEvent e c w.svc }
      refine ⟨?_, h2, h3⟩
      rw [h1]
      simp only [World.rest, offEvent_frame]
    | raise m => simp [runActions]

theorem runActions_listeners (event : String) (acts : List Action)
    (hno : ∀ c, Action.callOff event c ∉ acts) (w : World) (cur : List CallbackId)
    (hcur : listenersGet w.svc.listeners event = some cur) :
    listenersGet (runActions acts w).world.svc.listeners event =
      some (cur ++ registered event acts) := by
  induction acts generalizing w cur with
  | nil => simp [runActions, registered, hcur]
  | cons a rest ih =>
    have hrest : ∀ c, Action.callOff event c ∉ rest :=
      fun c hc => hno c (List.mem_cons_of_mem _ hc)
    cases a with
    | callOn e c =>
      simp only [runActions, registered]
      by_cases he : e = event
      · subst he
        rw [ih hrest _ (cur ++ [c])]
        · simp
        · simp [listenersGet_onEvent, hcur]
      · rw [ih hrest _ cur]
        · simp [he]
        · have : event ≠ e := fun x => he x.symm
          simp [listenersGet_onEvent, hcur, this]
    | callOff e c =>
      simp only [runActions, registered]
      have he : event ≠ e := by
        intro x
        subst x
        exact hno c (List.mem_cons_self _ _)
      rw [ih hrest _ cur]
      simp [listenersGet_offEvent_ne _ _ _ _ he, hcur]
    | raise m => simp [runActions, registered, hcur]

theorem forEach_thrown (beh : Behaviour) (event : String) (data : Payload) (n k : Nat)
    (w : World) : (forEach beh event data n k w).thrown = none := by
  induction n generalizing k w with
  | zero => simp [forEach]
  | succ n ih =>
    simp only [forEach]
    split
    · exact ih _ _
    · have hr : ∀ c : Completion,
          (tryCatch c (fun _error w1 => { world := w1, thrown := none })).thrown = none := by
        intro c
        unfold tryCatch
        split
        · assumption
        · rfl
      split
      · rename_i e he
        rw [hr] at he
        cases he
      · exact ih _ _

theorem tryCatch_world (c : Completion) :
    (tryCatch c (fun _error w1 => { world := w1, thrown := none })).world = c.world := by
  unfold tryCatch
  split <;> rfl

theorem tryCatch_thrown (c : Completion) :
    (tryCatch c (fun _error w1 => { world := w1, thrown := none })).thrown = none := by
  unfold tryCatch
  split
  · assumption
  · rfl


theorem forEach_some (beh : Behaviour) (event : String) (data : Payload) (n k : Nat)
    (w : World) (cb : CallbackId)
    (h : ((listenersGet w.svc.listeners event).getD []).get? k = some cb) :
    forEach beh event data (n + 1) k w =
      forEach beh event data n (k + 1) (callback beh cb data w).world := by
  simp only [forEach, h]
  split
  · rename_i e he
    rw [tryCatch_thrown] at he
    cases he
  · rw [tryCatch_world]

theorem forEach_none (beh : Behaviour) (event : String) (data : Payload) (n k : Nat)
    (w : World)
    (h : ((listenersGet w.svc.listeners event).getD []).get? k = none) :
    forEach beh event data (n + 1) k w = forEach beh event data n (k + 1) w := by
  simp only [forEach, h]

theorem callback_rest (beh : Behaviour) (cb : CallbackId) (data : Payload) (w : World) :
    (callback beh cb data w).world.rest = w.rest ∧
    (callback beh cb data w).world.invoked = w.invoked ++ [(cb, data)] ∧
    (callback beh cb data w).world.emitted = w.emitted := by
  unfold callback
  obtain ⟨h1, h2, h3⟩ := runActions_rest (beh cb) { w with invoked := w.invoked ++ [(cb, data)] }
  exact ⟨by rw [h1]; rfl, h2, h3⟩

theorem forEach_rest (beh : Behaviour) (event : String) (data : Payload) (n k : Nat)
    (w : World) :
    (forEach beh event data n k w).world.rest = w.rest ∧
    (forEach beh event data n k w).world.emitted = w.emitted := by
  induction n generalizing k w with
  | zero => simp [forEach]
  | succ n ih =>
    cases h : ((listenersGet w.svc.listeners event).getD []).get? k with
    | none => rw [forEach_none _ _ _ _ _ _ h]; exact ih _ _
    | some cb =>
      rw [forEach_some _ _ _ _ _ _ _ h]
      obtain ⟨h1, h2⟩ := ih (k + 1) (callback beh cb data w).world
      obtain ⟨c1, _, c3⟩ := callback_rest beh cb data w
      exact ⟨h1.trans c1, h2.trans c3⟩

theorem forEach_noOff (beh : Behaviour) (event : String) (data : Payload)
    (hno : NoOff beh event) (L : List CallbackId) (n : Nat) :
    ∀ (k : Nat) (w : World) (X : List CallbackId), n + k = L.length →
      listenersGet w.svc.listeners event = some (L ++ X) →
      (forEach beh event data n k w).world.invoked =
          w.invoked ++ (L.drop k).map (fun cb => (cb, data)) ∧
      listenersGet (forEach beh event data n k w).world.svc.listeners event =
          some (L ++ X ++ (L.drop k).flatMap (fun cb => registered event (beh cb))) := by
  induction n with
  | zero =>
    intro k w X hk hL
    have : L.drop k = [] := by
      apply List.drop_eq_nil_of_le
      omega
    simp [forEach, this, hL]
  | succ n ih =>
    intro k w X hk hL
    have hlt : k < L.length := by omega
    have hget : ((listenersGet w.svc.listeners event).getD []).get? k = some (L.get ⟨k, hlt⟩) := by
      rw [hL]
      simp [List.getElem?_append_left hlt]
    rw [forEach_some _ _ _ _ _ _ _ hget]
    have hdrop : L.drop k = L.get ⟨k, hlt⟩ :: L.drop (k + 1) := by
      simp
    obtain ⟨_, c2, _⟩ := callback_rest beh (L.get ⟨k, hlt⟩) data w
    have hL2 : listenersGet (callback beh (L.get ⟨k, hlt⟩) data w).world.svc.listeners event =
        some (L ++ (X ++ registered event (beh (L.get ⟨k, hlt⟩)))) := by
      have h := runActions_listeners event (beh (L.get ⟨k, hlt⟩)) (fun c => hno _ c)
        { w with invoked := w.invoked ++ [(L.get ⟨k, hlt⟩, data)] } (L ++ X) hL
      simpa [callback] using h
    obtain ⟨i1, i2⟩ := ih (k + 1) _ _ (by omega) hL2
    rw [i1, i2, c2, hdrop]
    simp only [List.map_cons, List.flatMap_cons, List.append_assoc, List.cons_append,
      List.nil_append, and_self]


theorem emitCompletion_thrown (beh : Behaviour) (event : String) (data : Payload) (w : World) :
    (emitCompletion beh event data w).thrown = none := by
  unfold emitCompletion
  simp only []
  split
  · rfl
  · exact forEach_thrown _ _ _ _ _ _

theorem emit_rest (beh : Behaviour) (event : String) (data : Payload) (w : World) :
    (emit beh event data w).rest = w.rest ∧
    (emit beh event data w).emitted = w.emitted ++ [(event, data)] := by
  unfold emit emitCompletion
  simp only []
  split
  · exact ⟨rfl, rfl⟩
  · obtain ⟨h1, h2⟩ := forEach_rest beh event data (List.length ‹_›) 0
      { w with emitted := w.emitted ++ [(event, data)] }
    exact ⟨h1.trans rfl, h2⟩

theorem emit_noOff (beh : Behaviour) (event : String) (data : Payload) (w : World)
    (hno : NoOff beh event) :
    (emit beh event data w).invoked =
        w.invoked ++ ((listenersGet w.svc.listeners event).getD []).map (fun cb => (cb, data)) ∧
    listenersGet (emit beh event data w).svc.listeners event =
      (listenersGet w.svc.listeners event).map
        (fun L => L ++ L.flatMap (fun cb => registered event (beh cb))) := by
  unfold emit emitCompletion
  simp only []
  cases hL : listenersGet w.svc.listeners event with
  | none => simp [hL]
  | some L =>
    have h := forEach_noOff beh event data hno L L.length 0
      { w with emitted := w.emitted ++ [(event, data)] } [] (by simp) (by simpa using hL)
    simpa using h

theorem rest_fields {w1 w : World} (h : w1.rest = w.rest) :
    w1.outbound = w.outbound ∧ w1.pending = w.pending ∧ w1.settled = w.settled ∧
    w1.svc.avatar = w.svc.avatar ∧ w1.svc.sessionData = w.svc.sessionData ∧
    w1.svc.isInitialized = w.svc.isInitialized ∧
    w1.svc.isInitializing = w.svc.isInitializing ∧
    w1.svc.isSpeaking = w.svc.isSpeaking ∧
    w1.svc.videoElement = w.svc.videoElement ∧
    w1.svc.accessToken = w.svc.accessToken := by
  obtain ⟨s1, o1, e1, i1, p1, t1⟩ := w1
  obtain ⟨s, o, e, i, p, t⟩ := w
  obtain ⟨a1, b1, c1, d1, f1, g1, h1, l1⟩ := s1
  obtain ⟨a, b, c, d, f, g, h', l⟩ := s
  simp only [World.rest, World.mk.injEq, Service.mk.injEq] at h
  simp only []
  tauto


theorem getAccessTokenFromN8n_error (r : FetchResult) (s : Service) (e : String)
    (h : (getAccessTokenFromN8n r s).2 = Except.error e) :
    getAccessTokenFromN8n r s = (s, Except.error e) := by
  unfold getAccessTokenFromN8n at h ⊢
  split at h
  · simp_all
  · simp only [] at h ⊢
    split at h
    · simp_all
    · split at h
      · simp_all
      · split_ifs at h ⊢ <;> simp_all

theorem getAccessTokenFromN8n_ok (r : FetchResult) (s : Service) (token : Json)
    (h : (getAccessTokenFromN8n r s).2 = Except.ok token) :
    getAccessTokenFromN8n r s = ({ s with accessToken := some token }, Except.ok token) := by
  unfold getAccessTokenFromN8n at h ⊢
  split at h
  · simp_all
  · simp only [] at h ⊢
    split at h
    · simp_all
    · split at h
      · simp_all
      · split_ifs at h ⊢
        simp_all

theorem emit_outbound (beh : Behaviour) (event : String) (data : Payload) (w : World) :
    (emit beh event data w).outbound = w.outbound :=
  (rest_fields (emit_rest beh event data w).1).1

theorem emit_pending (beh : Behaviour) (event : String) (data : Payload) (w : World) :
    (emit beh event data w).pending = w.pending :=
  (rest_fields (emit_rest beh event data w).1).2.1

theorem emit_settled (beh : Behaviour) (event : String) (data : Payload) (w : World) :
    (emit beh event data w).settled = w.settled :=
  (rest_fields (emit_rest beh event data w).1).2.2.1

theorem emit_avatar (beh : Behaviour) (event : String) (data : Payload) (w : World) :
    (emit beh event data w).svc.avatar = w.svc.avatar :=
  (rest_fields (emit_rest beh event data w).1).2.2.2.1

theorem emit_sessionData (beh : Behaviour) (event : String) (data : Payload) (w : World) :
    (emit beh event data w).svc.sessionData = w.svc.sessionData :=
  (rest_fields (emit_rest beh event data w).1).2.2.2.2.1

theorem emit_isInitialized (beh : Behaviour) (event : String) (data : Payload) (w : World) :
    (emit beh event data w).svc.isInitialized = w.svc.isInitialized :=
  (rest_fields (emit_rest beh event data w).1).2.2.2.2.2.1

theorem emit_isInitializing (beh : Behaviour) (event : String) (data : Payload) (w : World) :
    (emit beh event data w).svc.isInitializing = w.svc.isInitializing :=
  (rest_fields (emit_rest beh event data w).1).2.2.2.2.2.2.1

theorem emit_isSpeaking (beh : Behaviour) (event : String) (data : Payload) (w : World) :
    (emit beh event data w).svc.isSpeaking = w.svc.isSpeaking :=
  (rest_fields (emit_rest beh event data w).1).2.2.2.2.2.2.2.1

theorem emit_videoElement (beh : Behaviour) (event : String) (data : Payload) (w : World) :
    (emit beh event data w).svc.videoElement = w.svc.videoElement :=
  (rest_fields (emit_rest beh event data w).1).2.2.2.2.2.2.2.2.1

theorem emit_accessToken (beh : Behaviour) (event : String) (data : Payload) (w : World) :
    (emit beh event data w).svc.accessToken = w.svc.accessToken :=
  (rest_fields (emit_rest beh event data w).1).2.2.2.2.2.2.2.2.2

theorem emit_emitted (beh : Behaviour) (event : String) (data : Payload) (w : World) :
    (emit beh event data w).emitted = w.emitted ++ [(event, data)] :=
  (emit_rest beh event data w).2


theorem run_nil (beh : Behaviour) (w : World) : run beh [] w = w := rfl

theorem run_cons (beh : Behaviour) (st : Step) (rest : List Step) (w : World) :
    run beh (st :: rest) w = run beh rest (step beh st w) := rfl

theorem speakOptions_default (text : String) :
    speakOptions text [] =
      [("text", Json.str text), ("task_type", TaskType.REPEAT), ("taskMode", TaskMode.SYNC)] := by
  rfl

/-- C10: when the token fetch fails, or the token arrives and session creation
fails, `initializeAvatar()` rejects with that error, `avatar:error` is emitted
exactly once, `isReady()` is false and `isInitializing` is cleared; a following
`initializeAvatar()` call parks a fresh attempt on a new token request, also when
a token from the failed attempt is stored. -/
theorem failed_initialize_can_be_retried (beh : Behaviour) (s : Service) (p q : Nat)
    (r r2 : FetchResult) (e : String) (token : Json)
    (h1 : s.isInitialized = false) (h2 : s.isInitializing = false)
    (hr : (getAccessTokenFromN8n r { s with isInitializing := true }).2 = Except.error e)
    (hr2 : (getAccessTokenFromN8n r2 { s with isInitializing := true }).2 = Except.ok token) :
    let a := run beh [Step.initializeAvatar p, Step.fetchSettled p r] (World.start s)
    let b := run beh [Step.initializeAvatar p, Step.fetchSettled p r2,
      Step.createSettled p (Except.error e)] (World.start s)
    (a.settled = [(p, Outcome.rejected e)] ∧
      a.emitted = [("avatar:error", Payload.error e)] ∧
      isReady a.svc = false ∧ a.svc.isInitializing = false ∧ a.pending = [] ∧
      a.outbound = [Request.fetchToken] ∧
      (step beh (Step.initializeAvatar q) a).outbound =
        [Request.fetchToken, Request.fetchToken] ∧
      (step beh (Step.initializeAvatar q) a).pending =
        [Suspended.initFetch (InitCont.caller q)]) ∧
    (b.settled = [(p, Outcome.rejected e)] ∧
      b.emitted = [("avatar:error", Payload.error e)] ∧
      isReady b.svc = false ∧ b.svc.isInitializing = false ∧ b.pending = [] ∧
      b.svc.accessToken = some token ∧
      b.outbound = [Request.fetchToken,
        createStartAvatarRequest { token := token, listening := true }] ∧
      (step beh (Step.initializeAvatar q) b).outbound = b.outbound ++ [Request.fetchToken] ∧
      (step beh (Step.initializeAvatar q) b).pending =
        [Suspended.initFetch (InitCont.caller q)]) := by
  obtain ⟨av, sd, ini, ing, spk, ve, tok, ls⟩ := s
  simp only at h1 h2
  subst h1 h2
  have hpair := getAccessTokenFromN8n_error r _ e hr
  have hpair2 := getAccessTokenFromN8n_ok r2 _ token hr2
  intro a b
  refine ⟨⟨?_, ?_, ?_, ?_, ?_, ?_, ?_, ?_⟩, ⟨?_, ?_, ?_, ?_, ?_, ?_, ?_, ?_, ?_⟩⟩
  all_goals
    simp [a, b, run_cons, run_nil, step, initializeAvatar, World.start, isInitFetch,
      isInitCreate, InitCont.promise, resumeInitFetch, resumeInitCreate, hpair, hpair2,
      initCatch, settleInit, setupEventListeners, emit_settled,
      emit_emitted, emit_outbound, emit_isInitialized, emit_isInitializing, isReady,
      emit_pending, emit_accessToken]

/-- Witness of C10: the token endpoint answers with a server error on a fresh
service. -/
theorem failed_initialize_can_be_retried_witness :
    (run quiet [Step.initializeAvatar 1, Step.fetchSettled 1 (FetchResult.response false 500
      (Except.error "no body"))] (World.start Service.new)).settled =
      [(1, Outcome.rejected "Failed to get token: 500")] :=
  (failed_initialize_can_be_retried quiet Service.new 1 2
    (FetchResult.response false 500 (Except.error "no body")) tokenResponse
    "Failed to get token: 500" (Json.str "tok") rfl rfl rfl rfl).1.1

end HeyGenService

namespace AvatarDisplay

theorem removeGreen_length (data : List Nat) : (removeGreen data).length = data.length := by
  induction data using removeGreen.induct with
  | case1 r g b a rest ih => simp [removeGreen, ih]
  | case2 rest h =>
    unfold removeGreen
    split
    · exact absurd rfl (h _ _ _ _ _)
    · rfl

theorem getD_skip4 (r g b a : Nat) (rest : List Nat) (k : Nat) :
    (r :: g :: b :: a :: rest).getD (k + 4) 0 = rest.getD k 0 := by
  simp [List.getD_cons_succ]

theorem removeGreen_group (p : Nat) : ∀ (data : List Nat), 4 * p + 3 < data.length →
    (removeGreen data).getD (4 * p) 0 = data.getD (4 * p) 0 ∧
    (removeGreen data).getD (4 * p + 1) 0 = data.getD (4 * p + 1) 0 ∧
    (removeGreen data).getD (4 * p + 2) 0 = data.getD (4 * p + 2) 0 ∧
    (removeGreen data).getD (4 * p + 3) 0 =
      (if data.getD (4 * p + 1) 0 > 90 ∧ data.getD (4 * p) 0 < 90 ∧ data.getD (4 * p + 2) 0 < 90
        then 0 else data.getD (4 * p + 3) 0) := by
  induction p with
  | zero =>
    intro data h
    match data, h with
    | r :: g :: b :: a :: rest, _ =>
      simp [removeGreen]
      by_cases h1 : 90 < g <;> by_cases h2 : r < 90 <;> by_cases h3 : b < 90 <;> simp [h1, h2, h3]
  | succ n ih =>
    intro data h
    match data, h with
    | r :: g :: b :: a :: rest, h =>
      have hr : 4 * n + 3 < rest.length := by simp at h; omega
      have e0 : 4 * (n + 1) = 4 * n + 4 := by ring
      have e : ∀ j, 4 * (n + 1) + j = (4 * n + j) + 4 := by intro j; omega
      rw [e 1, e 2, e 3, e0]
      simp only [removeGreen, getD_skip4]
      exact ih rest hr

/-- C1: while the video is playing, one `processFrame` pass leaves a canvas of
the same length as the frame in which every pixel keeps its red, green and
blue values, and has alpha 0 when green > 90, red < 90 and blue < 90 and its
input alpha otherwise; (10,200,10,255) becomes transparent and
(200,50,50,255) is unchanged. -/
theorem processFrame_chroma_key (video : Video) (canvas : Canvas)
    (hpaused : video.paused = false) (hended : video.ended = false)
    (p : Nat) (hp : 4 * p + 3 < video.frame.length) :
    (processFrame video canvas).pixels.length = video.frame.length ∧
    (processFrame video canvas).pixels.getD (4 * p) 0 = video.frame.getD (4 * p) 0 ∧
    (processFrame video canvas).pixels.getD (4 * p + 1) 0 = video.frame.getD (4 * p + 1) 0 ∧
    (processFrame video canvas).pixels.getD (4 * p + 2) 0 = video.frame.getD (4 * p + 2) 0 ∧
    (processFrame video canvas).pixels.getD (4 * p + 3) 0 =
      (if video.frame.getD (4 * p + 1) 0 > 90 ∧ video.frame.getD (4 * p) 0 < 90 ∧
          video.frame.getD (4 * p + 2) 0 < 90
        then 0 else video.frame.getD (4 * p + 3) 0) ∧
    removeGreen [10, 200, 10, 255] = [10, 200, 10, 0] ∧
    removeGreen [200, 50, 50, 255] = [200, 50, 50, 255] := by
  have hpix : (processFrame video canvas).pixels = removeGreen video.frame := by
    simp [processFrame, hpaused, hended]
  rw [hpix]
  obtain ⟨h0, h1, h2, h3⟩ := removeGreen_group p video.frame hp
  exact ⟨removeGreen_length _, h0, h1, h2, h3, by decide, by decide⟩

/-- Witness of C1: a playing two-pixel frame, read at its second pixel. -/
theorem processFrame_chroma_key_witness :
    (processFrame playingVideo blankCanvas).pixels.getD 7 0 = 0 :=
  (processFrame_chroma_key playingVideo blankCanvas rfl rfl 1 (by decide)).2.2.2.2.1

end AvatarDisplay

namespace HeyGenService

/-- C3 (counterexample): listener 1 unregisters itself while `emit` dispatches
to the list [1, 2]; listener 2, subscribed when `emit` was called, is never
invoked. -/
theorem emit_not_a_snapshot :
    listenersGet twoListeners.svc.listeners "stream:ready" = some [1, 2] ∧
    (emit selfRemoving "stream:ready" Payload.undefined twoListeners).invoked =
      [(1, Payload.undefined)] ∧
    (emit selfRemoving "stream:ready" Payload.undefined twoListeners).invoked ≠
      [(1, Payload.undefined), (2, Payload.undefined)] := by
  decide

/-- C3 (amended): when no listener calls `off` for the kind during the
dispatch, `emit` calls exactly the listeners subscribed to that kind when it
was called, in order and once per registration, whatever the running
listeners register. -/
theorem emit_dispatch_without_off (beh : Behaviour) (event : String) (data : Payload)
    (w : World) (hno : NoOff beh event) :
    (emit beh event data w).invoked =
      w.invoked ++ ((listenersGet w.svc.listeners event).getD []).map (fun cb => (cb, data)) :=
  (emit_noOff beh event data w hno).1

/-- Witness of the amended C3: listener 2 registers listener 7 and throws. -/
theorem emit_dispatch_without_off_witness :
    (emit registersThenThrows "stream:ready" Payload.undefined twoListeners).invoked =
      twoListeners.invoked ++
        ((listenersGet twoListeners.svc.listeners "stream:ready").getD []).map
          (fun cb => (cb, Payload.undefined)) :=
  emit_dispatch_without_off registersThenThrows "stream:ready" Payload.undefined twoListeners
    (by intro cb c; unfold registersThenThrows; split <;> simp)


theorem registersThenThrows_noOff : NoOff registersThenThrows "stream:ready" := by
  intro cb c
  unfold registersThenThrows
  split <;> simp

theorem quiet_noOff (event : String) : NoOff quiet event := by
  intro cb c
  simp [quiet]

/-- C4 (counterexample): listener 1 unregisters itself and registers listener 7
while `emit` dispatches to the list [1, 2]; listener 7 is invoked by that same
dispatch, and listener 2 is not. -/
theorem registered_listener_runs_in_same_emit :
    listenersGet twoListeners.svc.listeners "stream:ready" = some [1, 2] ∧
    (emit swapsItself "stream:ready" (Payload.event "a") twoListeners).invoked =
      [(1, Payload.event "a"), (7, Payload.event "a")] := by
  decide

/-- C4 (amended): as long as no listener calls `off` for the kind, a listener that a
running listener registers during `emit(X)` adds no call to that dispatch,
which calls exactly the listeners `L` subscribed at its start, and the next
`emit(X)` calls `L` followed by the listeners registered meanwhile. -/
theorem registered_during_emit_runs_next_time (beh : Behaviour) (event : String)
    (d1 d2 : Payload) (w : World) (L : List CallbackId) (hno : NoOff beh event)
    (hL : listenersGet w.svc.listeners event = some L) :
    (emit beh event d1 w).invoked = w.invoked ++ L.map (fun cb => (cb, d1)) ∧
    listenersGet (emit beh event d1 w).svc.listeners event =
      some (L ++ L.flatMap (fun cb => registered event (beh cb))) ∧
    (emit beh event d2 (emit beh event d1 w)).invoked =
      (emit beh event d1 w).invoked ++
        (L ++ L.flatMap (fun cb => registered event (beh cb))).map (fun cb => (cb, d2)) := by
  obtain ⟨h1, h2⟩ := emit_noOff beh event d1 w hno
  obtain ⟨h3, _⟩ := emit_noOff beh event d2 (emit beh event d1 w) hno
  rw [hL] at h1 h2
  refine ⟨by simpa using h1, by simpa using h2, ?_⟩
  rw [h3, h2]
  simp

/-- Witness of the amended C4: listener 2 registers listener 7 while the first `emit`
runs; 7 is called by the second `emit` only. -/
theorem registered_during_emit_runs_next_time_witness :
    (emit registersThenThrows "stream:ready" (Payload.event "a") twoListeners).invoked =
      [(1, Payload.event "a"), (2, Payload.event "a")] ∧
    (emit registersThenThrows "stream:ready" (Payload.event "b")
      (emit registersThenThrows "stream:ready" (Payload.event "a") twoListeners)).invoked =
      [(1, Payload.event "a"), (2, Payload.event "a"),
       (1, Payload.event "b"), (2, Payload.event "b"), (7, Payload.event "b")] :=
  have h := registered_during_emit_runs_next_time registersThenThrows "stream:ready"
    (Payload.event "a") (Payload.event "b") twoListeners [1, 2] registersThenThrows_noOff rfl
  ⟨h.1, h.2.2.trans (by decide)⟩

/-- C5 (counterexample): listener 1 unregisters itself and throws while `emit`
dispatches to the list [1, 2]; listener 2, which comes after the throwing
listener, is not invoked. -/
theorem later_listener_lost_after_throw :
    listenersGet twoListeners.svc.listeners "stream:ready" = some [1, 2] ∧
    (callback removesItselfAndThrows 1 (Payload.event "a") twoListeners).thrown =
      some "boom" ∧
    (emit removesItselfAndThrows "stream:ready" (Payload.event "a") twoListeners).invoked =
      [(1, Payload.event "a")] := by
  decide

/-- C5 (amended): `emit` never throws, whatever its listeners do; and when no listener
calls `off` for the kind, every listener subscribed at the call is invoked
with the payload, also those that come after a listener that threw. -/
theorem emit_contains_listener_errors (beh : Behaviour) (event : String) (data : Payload)
    (w : World) :
    (emitCompletion beh event data w).thrown = none ∧
    (NoOff beh event →
      (emit beh event data w).invoked =
        w.invoked ++
          ((listenersGet w.svc.listeners event).getD []).map (fun cb => (cb, data))) :=
  ⟨emitCompletion_thrown beh event data w, fun hno => (emit_noOff beh event data w hno).1⟩

/-- Witness of the amended C5: listener 1 throws, `emit` does not, and listener 2 is still
called. -/
theorem emit_contains_listener_errors_witness :
    (callback firstThrows 1 (Payload.event "a") twoListeners).thrown = some "boom" ∧
    (emitCompletion firstThrows "stream:ready" (Payload.event "a") twoListeners).thrown = none ∧
    (emit firstThrows "stream:ready" (Payload.event "a") twoListeners).invoked =
      [(1, Payload.event "a"), (2, Payload.event "a")] :=
  have h := emit_contains_listener_errors firstThrows "stream:ready" (Payload.event "a")
    twoListeners
  ⟨by decide, h.1,
    h.2 (by intro cb c; unfold firstThrows; split <;> simp)⟩

/-- C8 (counterexample): a service in `Ready` is still ready, with its session
data in place, after the provider's error event. -/
theorem provider_error_keeps_ready :
    isReady readyService = true ∧
    isReady (step quiet (Step.avatarError "provider failure")
      (World.start readyService)).svc = true ∧
    (step quiet (Step.avatarError "provider failure")
      (World.start readyService)).svc.sessionData = some { session_id := "s-1" } := by
  decide

/-- C8 (amended): the provider's error event leaves the session fields of the
service as they were: `isReady()`, the session data, the avatar instance and the
three flags keep their values. -/
theorem provider_error_changes_no_field (beh : Behaviour) (error : String) (w : World) :
    isReady (step beh (Step.avatarError error) w).svc = isReady w.svc ∧
    (step beh (Step.avatarError error) w).svc.sessionData = w.svc.sessionData ∧
    (step beh (Step.avatarError error) w).svc.avatar = w.svc.avatar ∧
    (step beh (Step.avatarError error) w).svc.isInitialized = w.svc.isInitialized ∧
    (step beh (Step.avatarError error) w).svc.isInitializing = w.svc.isInitializing ∧
    (step beh (Step.avatarError error) w).svc.isSpeaking = w.svc.isSpeaking := by
  have h := rest_fields (emit_rest beh "avatar:error" (Payload.error error) w).1
  obtain ⟨_, _, _, h4, h5, h6, h7, h8, _, _⟩ := h
  simp only [step, onAvatarError, isReady]
  exact ⟨by rw [h4, h5, h6], h5, h4, h6, h7, h8⟩

/-- C9 (counterexample): with listeners 1 and 2 subscribed to `avatar:error`,
where listener 1 unregisters itself when called, the provider's error event
invokes listener 1 only: listener 2 is invoked zero times. -/
theorem error_listener_skipped :
    listenersGet (World.start readyService).svc.listeners "avatar:error" = some [1, 2] ∧
    (step leavesOnError (Step.avatarError "provider failure")
      (World.start readyService)).invoked = [(1, Payload.error "provider failure")] := by
  decide

/-- C9 (amended): the provider's error event makes exactly one `emit('avatar:error', error)`
call, sends no request, parks and settles no call and leaves `isInitializing`
alone (no retry); when no listener calls `off` for that kind, each listener
subscribed to it is called exactly once per registration with the error. -/
theorem provider_error_emitted_once (beh : Behaviour) (error : String) (w : World) :
    (step beh (Step.avatarError error) w).emitted =
      w.emitted ++ [("avatar:error", Payload.error error)] ∧
    (step beh (Step.avatarError error) w).outbound = w.outbound ∧
    (step beh (Step.avatarError error) w).pending = w.pending ∧
    (step beh (Step.avatarError error) w).settled = w.settled ∧
    (step beh (Step.avatarError error) w).svc.isInitializing = w.svc.isInitializing ∧
    (NoOff beh "avatar:error" →
      (step beh (Step.avatarError error) w).invoked =
        w.invoked ++ ((listenersGet w.svc.listeners "avatar:error").getD []).map
          (fun cb => (cb, Payload.error error))) := by
  obtain ⟨hr, he⟩ := emit_rest beh "avatar:error" (Payload.error error) w
  obtain ⟨h1, h2, h3, _, _, _, h7, _, _, _⟩ := rest_fields hr
  simp only [step, onAvatarError]
  exact ⟨he, h1, h2, h3, h7, fun hno => (emit_noOff beh _ _ w hno).1⟩

/-- Witness of the amended C9: two quiet listeners of `avatar:error` are each called once. -/
theorem provider_error_emitted_once_witness :
    (step quiet (Step.avatarError "provider failure") (World.start readyService)).invoked =
      [(1, Payload.error "provider failure"), (2, Payload.error "provider failure")] :=
  (provider_error_emitted_once quiet "provider failure" (World.start readyService)).2.2.2.2.2
    (quiet_noOff "avatar:error")


/-- C2 (counterexample): the attempt caller 2 is attached to succeeds with
session `s-1`, which caller 1 receives; a disconnect and a new initialisation
come before the polling timer of caller 2 fires, and caller 2 receives session
`s-2`. -/
theorem attached_caller_gets_later_session :
    outcomeOf pollAfterReinit 1 =
      some (Outcome.resolved (Value.session (some { session_id := "s-1" }))) ∧
    outcomeOf pollAfterReinit 2 =
      some (Outcome.resolved (Value.session (some { session_id := "s-2" }))) := by
  decide

/-- C2 (amended): two `initializeAvatar()` calls on an uninitialised service,
the second made while the first is parked on the token fetch or on
`createStartAvatar`, send one token request and one `createStartAvatar`
request (quality `high`, the configured avatar, no voice id) in all, and with
no other turn in between the first caller is resolved with the session and the
second, at the next firing of its polling timer, with the same session. In
every world, a call made while an attempt is in flight only arms its polling
timer, and a firing of that timer with `isInitialized` set resolves the caller
with the session data stored at that moment. -/
theorem concurrent_initialize_shares_one_attempt (beh : Behaviour) (s : Service)
    (p1 p2 : Nat) (r : FetchResult) (token : Json) (info : SessionInfo)
    (h1 : s.isInitialized = false) (h2 : s.isInitializing = false)
    (hr : (getAccessTokenFromN8n r { s with isInitializing := true }).2 = Except.ok token) :
    let a := run beh [Step.initializeAvatar p1, Step.initializeAvatar p2, Step.timer p2,
      Step.fetchSettled p1 r, Step.createSettled p1 (Except.ok info), Step.timer p2]
      (World.start s)
    let b := run beh [Step.initializeAvatar p1, Step.fetchSettled p1 r,
      Step.initializeAvatar p2, Step.createSettled p1 (Except.ok info), Step.timer p2]
      (World.start s)
    (a.outbound = [Request.fetchToken,
        Request.createStartAvatar { token := token, listening := true } "high"
          "Katya_ProfessionalLook_public" none] ∧
      a.settled = [(p1, Outcome.resolved (Value.session (some info))),
        (p2, Outcome.resolved (Value.session (some info)))] ∧
      a.pending = [] ∧ a.svc.sessionData = some info) ∧
    (b.outbound = [Request.fetchToken,
        Request.createStartAvatar { token := token, listening := true } "high"
          "Katya_ProfessionalLook_public" none] ∧
      b.settled = [(p1, Outcome.resolved (Value.session (some info))),
        (p2, Outcome.resolved (Value.session (some info)))] ∧
      b.pending = [] ∧ b.svc.sessionData = some info) ∧
    (∀ w : World, w.svc.isInitialized = false → w.svc.isInitializing = true →
      step beh (Step.initializeAvatar p2) w =
        { w with pending := w.pending ++ [Suspended.initPoll (InitCont.caller p2)] }) ∧
    (∀ w : World,
      w.pending.find? (isInitPoll p2) = some (Suspended.initPoll (InitCont.caller p2)) →
      w.svc.isInitialized = true →
      step beh (Step.timer p2) w =
        { w with
          pending := w.pending.eraseP (isInitPoll p2)
          settled := w.settled ++
            [(p2, Outcome.resolved (Value.session w.svc.sessionData))] }) := by
  obtain ⟨av, sd, ini, ing, spk, ve, tok, ls⟩ := s
  simp only at h1 h2
  subst h1 h2
  have hpair := getAccessTokenFromN8n_ok r _ token hr
  intro a b
  refine ⟨⟨?_, ?_, ?_, ?_⟩, ⟨?_, ?_, ?_, ?_⟩, ?_, ?_⟩
  · simp [a, run_cons, run_nil, step, initializeAvatar, World.start, isInitFetch,
      isInitCreate, isInitPoll, InitCont.promise, resumeInitFetch, resumeInitCreate, hpair,
      pollTick, settleInit, setupEventListeners, emit_outbound, emit_isInitialized,
      emit_pending, List.eraseP_cons, createStartAvatarRequest, getQualityLevel,
      chatConfig.heygen, AvatarQuality.High]
  · simp [a, run_cons, run_nil, step, initializeAvatar, World.start, isInitFetch,
      isInitCreate, isInitPoll, InitCont.promise, resumeInitFetch, resumeInitCreate, hpair,
      pollTick, settleInit, setupEventListeners, emit_settled, emit_isInitialized,
      emit_pending, emit_sessionData, List.eraseP_cons]
  · simp [a, run_cons, run_nil, step, initializeAvatar, World.start, isInitFetch,
      isInitCreate, isInitPoll, InitCont.promise, resumeInitFetch, resumeInitCreate, hpair,
      pollTick, settleInit, setupEventListeners, emit_isInitialized,
      emit_pending, List.eraseP_cons]
  · simp [a, run_cons, run_nil, step, initializeAvatar, World.start, isInitFetch,
      isInitCreate, isInitPoll, InitCont.promise, resumeInitFetch, resumeInitCreate, hpair,
      pollTick, settleInit, setupEventListeners, emit_isInitialized,
      emit_pending, emit_sessionData, List.eraseP_cons]
  · simp [b, run_cons, run_nil, step, initializeAvatar, World.start, isInitFetch,
      isInitCreate, isInitPoll, InitCont.promise, resumeInitFetch, resumeInitCreate, hpair,
      pollTick, settleInit, setupEventListeners, emit_outbound, emit_isInitialized,
      emit_pending, List.eraseP_cons, createStartAvatarRequest, getQualityLevel,
      chatConfig.heygen, AvatarQuality.High]
  · simp [b, run_cons, run_nil, step, initializeAvatar, World.start, isInitFetch,
      isInitCreate, isInitPoll, InitCont.promise, resumeInitFetch, resumeInitCreate, hpair,
      pollTick, settleInit, setupEventListeners, emit_settled, emit_isInitialized,
      emit_pending, emit_sessionData, List.eraseP_cons]
  · simp [b, run_cons, run_nil, step, initializeAvatar, World.start, isInitFetch,
      isInitCreate, isInitPoll, InitCont.promise, resumeInitFetch, resumeInitCreate, hpair,
      pollTick, settleInit, setupEventListeners, emit_isInitialized,
      emit_pending, List.eraseP_cons]
  · simp [b, run_cons, run_nil, step, initializeAvatar, World.start, isInitFetch,
      isInitCreate, isInitPoll, InitCont.promise, resumeInitFetch, resumeInitCreate, hpair,
      pollTick, settleInit, setupEventListeners, emit_isInitialized,
      emit_pending, emit_sessionData, List.eraseP_cons]
  · intro w hi hg
    simp [step, initializeAvatar, hi, hg]
  · intro w hf hi
    simp [step, hf, pollTick, hi, settleInit]

/-- Witness of the amended C2: two callers on a fresh service whose token fetch
succeeds. -/
theorem concurrent_initialize_shares_one_attempt_witness :
    (run quiet [Step.initializeAvatar 1, Step.initializeAvatar 2, Step.timer 2,
      Step.fetchSettled 1 tokenResponse,
      Step.createSettled 1 (Except.ok { session_id := "s-1" }), Step.timer 2]
      (World.start Service.new)).settled =
      [(1, Outcome.resolved (Value.session (some { session_id := "s-1" }))),
       (2, Outcome.resolved (Value.session (some { session_id := "s-1" })))] :=
  (concurrent_initialize_shares_one_attempt quiet Service.new 1 2 tokenResponse
    (Json.str "tok") { session_id := "s-1" } rfl rfl rfl).1.2.1

/-- C7: `speak(text)` with default options on a ready service sends exactly one
`avatar.speak` request carrying the text, `TaskType.REPEAT` (the configured
task type) and `TaskMode.SYNC`; when the provider accepts it, `speak` resolves
to `true`, nothing is emitted and the service is unchanged. On an
uninitialised service the token request and `createStartAvatar` come first
and the single speak request follows their success. For `speak("hello")` the
request has text `hello`. -/
theorem speak_sends_one_command (beh : Behaviour) (s : Service) (p : Nat) (text : String) :
    (∀ a, s.isInitialized = true → s.avatar = some a →
      run beh [Step.speak p text [], Step.speakSettled p (Except.ok ())] (World.start s) =
        { World.start s with
          outbound := [Request.speak [("text", Json.str text),
            ("task_type", TaskType.REPEAT), ("taskMode", TaskMode.SYNC)]]
          settled := [(p, Outcome.resolved (Value.bool true))] }) ∧
    (∀ r token info, s.isInitialized = false → s.isInitializing = false →
      (getAccessTokenFromN8n r { s with isInitializing := true }).2 = Except.ok token →
      (run beh [Step.speak p text [], Step.fetchSettled p r,
          Step.createSettled p (Except.ok info), Step.speakSettled p (Except.ok ())]
          (World.start s)).outbound =
        [Request.fetchToken,
          createStartAvatarRequest { token := token, listening := true },
          Request.speak [("text", Json.str text),
            ("task_type", TaskType.REPEAT), ("taskMode", TaskMode.SYNC)]] ∧
      (run beh [Step.speak p text [], Step.fetchSettled p r,
          Step.createSettled p (Except.ok info), Step.speakSettled p (Except.ok ())]
          (World.start s)).settled = [(p, Outcome.resolved (Value.bool true))] ∧
      (run beh [Step.speak p text [], Step.fetchSettled p r,
          Step.createSettled p (Except.ok info)]
          (World.start s)).settled = []) ∧
    speakOptions "hello" [] =
      [("text", Json.str "hello"), ("task_type", Json.str "repeat"),
        ("taskMode", Json.str "sync")] := by
  refine ⟨?_, ?_, rfl⟩
  · intro a hi ha
    obtain ⟨av, sd, ini, ing, spk, ve, tok, ls⟩ := s
    simp only at hi ha
    subst hi ha
    simp [run_cons, run_nil, step, speak, speakBody, World.start, isSpeakSend,
      resumeSpeakSend, speakOptions_default]
  · intro r token info h1 h2 hr
    obtain ⟨av, sd, ini, ing, spk, ve, tok, ls⟩ := s
    simp only at h1 h2
    subst h1 h2
    have hpair := getAccessTokenFromN8n_ok r _ token hr
    refine ⟨?_, ?_, ?_⟩
    all_goals
      simp [run_cons, run_nil, step, speak, speakBody, initializeAvatar, World.start,
        isInitFetch, isInitCreate, isSpeakSend, InitCont.promise, resumeInitFetch,
        resumeInitCreate, resumeSpeakSend, hpair, settleInit, setupEventListeners,
        emit_settled, emit_emitted, emit_outbound, emit_isInitialized, emit_isInitializing,
        emit_pending, emit_accessToken, emit_sessionData, emit_avatar,
        speakOptions_default]

/-- Witness of C7: `speak("hello")` on the ready sample service. -/
theorem speak_sends_one_command_witness :
    (run quiet [Step.speak 1 "hello" [], Step.speakSettled 1 (Except.ok ())]
      (World.start readyService)).outbound =
      [Request.speak [("text", Json.str "hello"), ("task_type", TaskType.REPEAT),
        ("taskMode", TaskMode.SYNC)]] :=
  congrArg World.outbound
    ((speak_sends_one_command quiet readyService 1 "hello").1
      { token := Json.str "tok", listening := true } rfl rfl)


/-- C6 (counterexample): `speak("hello")` on a fresh service whose token fetch
fails does not return `false`: its promise is rejected with the fetch error. -/
theorem speak_rejects_when_initialize_fails :
    outcomeOf speakWithoutNetwork 1 = some (Outcome.rejected "network down") ∧
    outcomeOf speakWithoutNetwork 1 ≠ some (Outcome.resolved (Value.bool false)) ∧
    speakWithoutNetwork.emitted = [("avatar:error", Payload.error "network down")] := by
  decide

theorem find_speakSend (p : Nat) (pending : List Suspended)
    (h : Suspended.speakSend p ∈ pending) :
    pending.find? (isSpeakSend p) = some (Suspended.speakSend p) := by
  induction pending with
  | nil => cases h
  | cons t rest ih =>
    rw [List.find?_cons]
    cases ht : isSpeakSend p t with
    | true =>
      cases t <;> simp [isSpeakSend] at ht
      subst ht
      rfl
    | false =>
      simp only
      apply ih
      cases h with
      | head => simp [isSpeakSend] at ht
      | tail _ hm => exact hm

/-- C6 (amended): when the provider's speak command fails, `speak` emits the
failure as one `avatar:error` event and resolves to `false`, in every world in
which the call is parked on that command, whether the session was active at
the call or created by the `initializeAvatar()` that `speak` started; with
`isInitialized` set and no avatar instance `speak` resolves to `false` as well;
when no session is active, no attempt is in flight and the
`initializeAvatar()` that `speak` starts fails (token fetch or session
creation), the failure is emitted as one `avatar:error` event and `speak`
rejects with it. -/
theorem speak_failure_paths (beh : Behaviour) (s : Service) (p : Nat) (text : String)
    (options : List (String × Json)) (e : String) :
    (∀ a, s.isInitialized = true → s.avatar = some a →
      (run beh [Step.speak p text options, Step.speakSettled p (Except.error e)]
          (World.start s)).settled = [(p, Outcome.resolved (Value.bool false))] ∧
      (run beh [Step.speak p text options, Step.speakSettled p (Except.error e)]
          (World.start s)).emitted = [("avatar:error", Payload.error e)]) ∧
    (∀ r, s.isInitialized = false → s.isInitializing = false →
      (getAccessTokenFromN8n r { s with isInitializing := true }).2 = Except.error e →
      (run beh [Step.speak p text options, Step.fetchSettled p r]
          (World.start s)).settled = [(p, Outcome.rejected e)] ∧
      (run beh [Step.speak p text options, Step.fetchSettled p r]
          (World.start s)).emitted = [("avatar:error", Payload.error e)]) ∧
    (∀ r token, s.isInitialized = false → s.isInitializing = false →
      (getAccessTokenFromN8n r { s with isInitializing := true }).2 = Except.ok token →
      (run beh [Step.speak p text options, Step.fetchSettled p r,
          Step.createSettled p (Except.error e)]
          (World.start s)).settled = [(p, Outcome.rejected e)] ∧
      (run beh [Step.speak p text options, Step.fetchSettled p r,
          Step.createSettled p (Except.error e)]
          (World.start s)).emitted = [("avatar:error", Payload.error e)]) ∧
    (∀ w : World, Suspended.speakSend p ∈ w.pending →
      (step beh (Step.speakSettled p (Except.error e)) w).settled =
        w.settled ++ [(p, Outcome.resolved (Value.bool false))] ∧
      (step beh (Step.speakSettled p (Except.error e)) w).emitted =
        w.emitted ++ [("avatar:error", Payload.error e)] ∧
      (step beh (Step.speakSettled p (Except.error e)) w).outbound = w.outbound) ∧
    (∀ r token info, s.isInitialized = false → s.isInitializing = false →
      (getAccessTokenFromN8n r { s with isInitializing := true }).2 = Except.ok token →
      (run beh [Step.speak p text options, Step.fetchSettled p r,
          Step.createSettled p (Except.ok info), Step.speakSettled p (Except.error e)]
          (World.start s)).settled = [(p, Outcome.resolved (Value.bool false))] ∧
      (run beh [Step.speak p text options, Step.fetchSettled p r,
          Step.createSettled p (Except.ok info), Step.speakSettled p (Except.error e)]
          (World.start s)).emitted =
        [("avatar:initialized", Payload.session info), ("avatar:error", Payload.error e)]) ∧
    (s.isInitialized = true → s.avatar = none →
      (step beh (Step.speak p text options) (World.start s)).settled =
        [(p, Outcome.resolved (Value.bool false))] ∧
      (step beh (Step.speak p text options) (World.start s)).emitted =
        [("avatar:error", Payload.error "TypeError")]) := by
  refine ⟨?_, ?_, ?_, ?_, ?_, ?_⟩
  · intro a hi ha
    obtain ⟨av, sd, ini, ing, spk, ve, tok, ls⟩ := s
    simp only at hi ha
    subst hi ha
    constructor
    all_goals
      simp [run_cons, run_nil, step, speak, speakBody, speakCatch, World.start, isSpeakSend,
        resumeSpeakSend, emit_settled, emit_emitted]
  · intro r h1 h2 hr
    obtain ⟨av, sd, ini, ing, spk, ve, tok, ls⟩ := s
    simp only at h1 h2
    subst h1 h2
    have hpair := getAccessTokenFromN8n_error r _ e hr
    constructor
    all_goals
      simp [run_cons, run_nil, step, speak, initializeAvatar, World.start,
        isInitFetch, InitCont.promise, resumeInitFetch, hpair, initCatch, settleInit,
        emit_settled, emit_emitted]
  · intro r token h1 h2 hr
    obtain ⟨av, sd, ini, ing, spk, ve, tok, ls⟩ := s
    simp only at h1 h2
    subst h1 h2
    have hpair := getAccessTokenFromN8n_ok r _ token hr
    constructor
    all_goals
      simp [run_cons, run_nil, step, speak, initializeAvatar, World.start,
        isInitFetch, isInitCreate, InitCont.promise, resumeInitFetch, resumeInitCreate,
        hpair, initCatch, settleInit, setupEventListeners, emit_settled, emit_emitted]
  · intro w hm
    have hf := find_speakSend p w.pending hm
    refine ⟨?_, ?_, ?_⟩
    all_goals
      simp [step, hf, resumeSpeakSend, speakCatch, emit_settled, emit_emitted, emit_outbound]
  · intro r token info h1 h2 hr
    obtain ⟨av, sd, ini, ing, spk, ve, tok, ls⟩ := s
    simp only at h1 h2
    subst h1 h2
    have hpair := getAccessTokenFromN8n_ok r _ token hr
    constructor
    all_goals
      simp [run_cons, run_nil, step, speak, speakBody, speakCatch, initializeAvatar,
        World.start, isInitFetch, isInitCreate, isSpeakSend, InitCont.promise,
        resumeInitFetch, resumeInitCreate, resumeSpeakSend, hpair, settleInit,
        setupEventListeners, emit_settled, emit_emitted, emit_pending, emit_avatar]
  · intro hi ha
    obtain ⟨av, sd, ini, ing, spk, ve, tok, ls⟩ := s
    simp only at hi ha
    subst hi ha
    constructor
    all_goals
      simp [step, speak, speakBody, speakCatch, initializeAvatar, settleInit, World.start,
        emit_settled, emit_emitted]

/-- Witness of the amended C6: the speak command fails on the ready sample
service. -/
theorem speak_failure_paths_witness :
    (run quiet [Step.speak 1 "hello" [], Step.speakSettled 1 (Except.error "busy")]
      (World.start readyService)).settled = [(1, Outcome.resolved (Value.bool false))] :=
  ((speak_failure_paths quiet readyService 1 "hello" [] "busy").1
    { token := Json.str "tok", listening := true } rfl rfl).1

end HeyGenService

namespace HeyGenService

theorem run_append (beh : Behaviour) (xs ys : List Step) (w : World) :
    run beh (xs ++ ys) w = run beh ys (run beh xs w) := by
  simp [run, List.foldl_append]

theorem run_replicate_fixed (beh : Behaviour) (st : Step) (w : World)
    (h : step beh st w = w) (n : Nat) : run beh (List.replicate n st) w = w := by
  induction n with
  | zero => rfl
  | succ n ih => rw [List.replicate_succ, run_cons, h, ih]

/-- C11 (the code at the failing input): after the attempt of caller 1 has
failed, caller 1 is rejected, but caller 2, attached to it, is still parked on
its polling timer and unsettled, however many times the timer fires. -/
theorem attached_caller_never_settles (n : Nat) :
    outcomeOf (attachedToFailedAttempt n) 1 = some (Outcome.rejected "network down") ∧
    outcomeOf (attachedToFailedAttempt n) 2 = none ∧
    (attachedToFailedAttempt n).pending = [Suspended.initPoll (InitCont.caller 2)] ∧
    (attachedToFailedAttempt n).svc.isInitializing = false := by
  have h : attachedToFailedAttempt n = attachedToFailedAttempt 0 := by
    unfold attachedToFailedAttempt
    rw [run_append, run_append]
    rw [run_replicate_fixed quiet (Step.timer 2) _ rfl n]
    rfl
  rw [h]
  exact ⟨by decide, by decide, rfl, rfl⟩


/-- C12: when the token fetch and `createStartAvatar` both succeed,
`initializeAvatar()` leaves `isReady()` true and `isInitializing` false, stores
the session the provider returned, resolves with exactly that session and
emits `avatar:initialized` exactly once with it; one token request and one
`createStartAvatar` were sent. -/
theorem initialize_success_is_ready (beh : Behaviour) (s : Service) (p : Nat)
    (r : FetchResult) (token : Json) (info : SessionInfo)
    (h1 : s.isInitialized = false) (h2 : s.isInitializing = false)
    (hr : (getAccessTokenFromN8n r { s with isInitializing := true }).2 = Except.ok token) :
    let w := run beh [Step.initializeAvatar p, Step.fetchSettled p r,
      Step.createSettled p (Except.ok info)] (World.start s)
    isReady w.svc = true ∧ w.svc.isInitialized = true ∧ w.svc.isInitializing = false ∧
    w.svc.sessionData = some info ∧
    w.settled = [(p, Outcome.resolved (Value.session (some info)))] ∧
    w.emitted = [("avatar:initialized", Payload.session info)] ∧
    w.outbound = [Request.fetchToken,
      createStartAvatarRequest { token := token, listening := true }] ∧
    w.pending = [] := by
  obtain ⟨av, sd, ini, ing, spk, ve, tok, ls⟩ := s
  simp only at h1 h2
  subst h1 h2
  have hpair := getAccessTokenFromN8n_ok r _ token hr
  intro w
  refine ⟨?_, ?_, ?_, ?_, ?_, ?_, ?_, ?_⟩
  all_goals
    simp [w, run_cons, run_nil, step, initializeAvatar, World.start, isInitFetch,
      isInitCreate, InitCont.promise, resumeInitFetch, resumeInitCreate, hpair,
      settleInit, setupEventListeners, emit_settled, emit_emitted, emit_outbound,
      emit_isInitialized, emit_isInitializing, isReady, emit_pending, emit_accessToken,
      emit_sessionData, emit_avatar]

/-- Witness of C12: a fresh service, the sample token response and session `s-1`. -/
theorem initialize_success_is_ready_witness :
    isReady (run quiet [Step.initializeAvatar 1, Step.fetchSettled 1 tokenResponse,
      Step.createSettled 1 (Except.ok { session_id := "s-1" })]
      (World.start Service.new)).svc = true :=
  (initialize_success_is_ready quiet Service.new 1 tokenResponse (Json.str "tok")
    { session_id := "s-1" } rfl rfl rfl).1

theorem initializeAvatar_when_initialized (beh : Behaviour) (w : World) (p : Nat)
    (h : w.svc.isInitialized = true) :
    step beh (Step.initializeAvatar p) w =
      { w with settled := w.settled ++
          [(p, Outcome.resolved (Value.session w.svc.sessionData))] } := by
  simp [step, initializeAvatar, h, settleInit]

/-- C13: `initializeAvatar()` on a service whose session is active resolves
with the stored session and changes nothing else: no request is sent, no event
emitted, no call parked and no field of the service touched; the same holds
for any number of such calls in a row. -/
theorem initialize_when_active_is_noop (beh : Behaviour) (w : World) (info : SessionInfo)
    (h : w.svc.isInitialized = true) (hs : w.svc.sessionData = some info) (ps : List Nat) :
    run beh (ps.map Step.initializeAvatar) w =
      { w with settled := w.settled ++
          ps.map (fun p => (p, Outcome.resolved (Value.session (some info)))) } := by
  induction ps generalizing w with
  | nil => simp [run_nil]
  | cons p ps ih =>
    rw [List.map_cons, run_cons, initializeAvatar_when_initialized beh w p h]
    have := ih { w with settled := w.settled ++
      [(p, Outcome.resolved (Value.session w.svc.sessionData))] } h hs
    rw [this]
    simp [hs]

/-- Witness of C13: three calls on the ready sample service. -/
theorem initialize_when_active_is_noop_witness :
    (run quiet ([1, 2, 3].map Step.initializeAvatar) (World.start readyService)).outbound = [] ∧
    (run quiet ([1, 2, 3].map Step.initializeAvatar) (World.start readyService)).emitted = [] :=
  have h := initialize_when_active_is_noop quiet (World.start readyService)
    { session_id := "s-1" } rfl rfl [1, 2, 3]
  ⟨congrArg World.outbound h, congrArg World.emitted h⟩

/-- C14: `interrupt()` while the avatar is not speaking resolves at once and
changes nothing else: no command is sent, no event emitted and no field of the
service touched. -/
theorem interrupt_when_not_speaking_is_noop (beh : Behaviour) (w : World) (p : Nat)
    (h : w.svc.isSpeaking = false) :
    step beh (Step.interrupt p) w =
      { w with settled := w.settled ++ [(p, Outcome.resolved Value.undefined)] } := by
  simp [step, interrupt, h]

/-- Witness of C14: the ready sample service, which is not speaking. -/
theorem interrupt_when_not_speaking_is_noop_witness :
    isReady readyService = true ∧
    (step quiet (Step.interrupt 1) (World.start readyService)).outbound = [] ∧
    (step quiet (Step.interrupt 1) (World.start readyService)).emitted = [] :=
  have h := interrupt_when_not_speaking_is_noop quiet (World.start readyService) 1 rfl
  ⟨by decide, congrArg World.outbound h, congrArg World.emitted h⟩

/-- C15: `stopAvatar()` on a service with an active session sends one stop
command; when the provider accepts it the session data is cleared, `isReady()`
and the `isInitialized`, `isInitializing` and `isSpeaking` flags are false, the
bound video element has no stream, `avatar:stopped` is emitted exactly once and
the call resolves. -/
theorem stop_releases_session (beh : Behaviour) (s : Service) (p : Nat) (a : Avatar)
    (h1 : s.isInitialized = true) (h2 : s.avatar = some a) :
    let w := run beh [Step.stopAvatar p, Step.stopSettled p (Except.ok ())] (World.start s)
    w.svc.sessionData = none ∧ isReady w.svc = false ∧ w.svc.isInitialized = false ∧
    w.svc.isInitializing = false ∧ w.svc.isSpeaking = false ∧
    w.svc.videoElement = s.videoElement.map (fun v => { v with srcObject := none }) ∧
    w.emitted = [("avatar:stopped", Payload.undefined)] ∧
    w.outbound = [Request.stopAvatar] ∧
    w.settled = [(p, Outcome.resolved Value.undefined)] ∧ w.pending = [] := by
  obtain ⟨av, sd, ini, ing, spk, ve, tok, ls⟩ := s
  simp only at h1 h2
  subst h1 h2
  intro w
  refine ⟨?_, ?_, ?_, ?_, ?_, ?_, ?_, ?_, ?_, ?_⟩
  all_goals
    simp [w, run_cons, run_nil, step, stopAvatar, resumeStop, stopCleanup, World.start,
      isStopSend, isReady, emit_settled, emit_emitted, emit_outbound, emit_isInitialized,
      emit_isInitializing, emit_pending, emit_sessionData, emit_isSpeaking,
      emit_videoElement]

/-- Witness of C15: the ready sample service with a playing video element. -/
theorem stop_releases_session_witness :
    (run quiet [Step.stopAvatar 1, Step.stopSettled 1 (Except.ok ())]
      (World.start readyWithVideo)).svc.videoElement =
      some { id := 1, srcObject := none, playCalls := 1 } :=
  (stop_releases_session quiet readyWithVideo 1 { token := Json.str "tok", listening := true }
    rfl rfl).2.2.2.2.2.1


/-- C16 (counterexample): `stopAvatar()` called while `initializeAvatar()` is
parked on the token fetch resolves at once and does nothing; the attempt goes
on, and once it has succeeded the service is ready with its session, and no
`avatar:stopped` was emitted. -/
theorem stop_while_initializing_does_nothing :
    outcomeOf stopWhileInitializing 2 = some (Outcome.resolved Value.undefined) ∧
    isReady stopWhileInitializing.svc = true ∧
    stopWhileInitializing.svc.sessionData = some { session_id := "s-1" } ∧
    stopWhileInitializing.emitted =
      [("avatar:initialized", Payload.session { session_id := "s-1" })] := by
  decide

/-- C16 (amended): `stopAvatar()` on a service whose `isInitialized` is false
(never initialised, initialising, or disconnected) resolves at once and changes
nothing else: no command is sent, no event emitted and no field touched; an
attempt in flight at that moment goes on and, when it succeeds, leaves the
service ready with the session it obtained. -/
theorem stop_without_session_is_noop (beh : Behaviour) :
    (∀ (w : World) (q : Nat), w.svc.isInitialized = false →
      step beh (Step.stopAvatar q) w =
        { w with settled := w.settled ++ [(q, Outcome.resolved Value.undefined)] }) ∧
    (∀ (s : Service) (p q : Nat) (r : FetchResult) (token : Json) (info : SessionInfo),
      s.isInitialized = false → s.isInitializing = false →
      (getAccessTokenFromN8n r { s with isInitializing := true }).2 = Except.ok token →
      isReady (run beh [Step.initializeAvatar p, Step.stopAvatar q, Step.fetchSettled p r,
        Step.createSettled p (Except.ok info)] (World.start s)).svc = true ∧
      (run beh [Step.initializeAvatar p, Step.stopAvatar q, Step.fetchSettled p r,
        Step.createSettled p (Except.ok info)] (World.start s)).svc.sessionData = some info ∧
      (run beh [Step.initializeAvatar p, Step.stopAvatar q, Step.fetchSettled p r,
        Step.createSettled p (Except.ok info)] (World.start s)).emitted =
        [("avatar:initialized", Payload.session info)]) := by
  constructor
  · intro w q h
    simp [step, stopAvatar, h]
  · intro s p q r token info h1 h2 hr
    obtain ⟨av, sd, ini, ing, spk, ve, tok, ls⟩ := s
    simp only at h1 h2
    subst h1 h2
    have hpair := getAccessTokenFromN8n_ok r _ token hr
    refine ⟨?_, ?_, ?_⟩
    all_goals
      simp [run_cons, run_nil, step, initializeAvatar, stopAvatar, World.start, isInitFetch,
        isInitCreate, InitCont.promise, resumeInitFetch, resumeInitCreate, hpair,
        settleInit, setupEventListeners, emit_settled, emit_emitted, emit_outbound,
        emit_isInitialized, emit_isInitializing, isReady, emit_pending, emit_accessToken,
        emit_sessionData, emit_avatar]

/-- Witness of the amended C16: `stopAvatar()` on a fresh service. -/
theorem stop_without_session_is_noop_witness :
    (step quiet (Step.stopAvatar 1) (World.start Service.new)).outbound = [] ∧
    (step quiet (Step.stopAvatar 1) (World.start Service.new)).emitted = [] :=
  have h := (stop_without_session_is_noop quiet).1 (World.start Service.new) 1 rfl
  ⟨congrArg World.outbound h, congrArg World.emitted h⟩

/-- C17 (counterexample): after the provider's disconnect event on a ready
service, the session data is still stored and the video element still holds
its stream. -/
theorem disconnect_keeps_session_data :
    disconnectedWhileReady.svc.sessionData = some { session_id := "s-1" } ∧
    disconnectedWhileReady.svc.videoElement =
      some { id := 1, srcObject := some "stream-1", playCalls := 1 } := by
  decide

/-- C17 (amended): the provider's disconnect event clears `isInitialized`, so
`isReady()` is false, and emits `stream:disconnected` exactly once; the stored
session data, the bound video element with its stream, the avatar instance and
the other flags are left as they were, and no request is sent. -/
theorem disconnect_clears_only_the_flag (beh : Behaviour) (event : String) (w : World) :
    isReady (step beh (Step.streamDisconnected event) w).svc = false ∧
    (step beh (Step.streamDisconnected event) w).svc.isInitialized = false ∧
    (step beh (Step.streamDisconnected event) w).emitted =
      w.emitted ++ [("stream:disconnected", Payload.event event)] ∧
    (step beh (Step.streamDisconnected event) w).svc.sessionData = w.svc.sessionData ∧
    (step beh (Step.streamDisconnected event) w).svc.videoElement = w.svc.videoElement ∧
    (step beh (Step.streamDisconnected event) w).svc.avatar = w.svc.avatar ∧
    (step beh (Step.streamDisconnected event) w).svc.isSpeaking = w.svc.isSpeaking ∧
    (step beh (Step.streamDisconnected event) w).svc.isInitializing = w.svc.isInitializing ∧
    (step beh (Step.streamDisconnected event) w).outbound = w.outbound := by
  refine ⟨?_, ?_, ?_, ?_, ?_, ?_, ?_, ?_, ?_⟩
  all_goals
    simp [step, onStreamDisconnected, isReady, emit_emitted, emit_outbound,
      emit_isInitialized, emit_isInitializing, emit_sessionData, emit_isSpeaking,
      emit_videoElement, emit_avatar]


theorem getProp_obj_of_ne_undefined (v : Json) (key : String)
    (h : getProp v key ≠ Json.undefined) : ∃ fields, v = Json.obj fields := by
  cases v with
  | obj fields => exact ⟨fields, rfl⟩
  | undefined => exact absurd rfl h
  | null => exact absurd rfl h
  | bool b => exact absurd rfl h
  | num n => exact absurd rfl h
  | str s => exact absurd rfl h
  | arr items => exact absurd rfl h

theorem truthy_str (tok : String) (h : tok ≠ "") : (Json.str tok).truthy = true := by
  simp [Json.truthy, h]

/-- C18: for a success response whose body is an object with `data.token` a
non-empty string, `getAccessTokenFromN8n` returns exactly that string and
stores it as `accessToken`; it returns the same token when the body is a
one-element array wrapping that object. -/
theorem token_is_extracted (s : Service) (status : Nat) (fields : List (String × Json))
    (tok : String) (htok : getProp (getProp (Json.obj fields) "data") "token" = Json.str tok)
    (hne : tok ≠ "") :
    getAccessTokenFromN8n (FetchResult.response true status (Except.ok (Json.obj fields))) s =
      ({ s with accessToken := some (Json.str tok) }, Except.ok (Json.str tok)) ∧
    getAccessTokenFromN8n
        (FetchResult.response true status (Except.ok (Json.arr [Json.obj fields]))) s =
      ({ s with accessToken := some (Json.str tok) }, Except.ok (Json.str tok)) := by
  have hd : getProp (Json.obj fields) "data" ≠ Json.undefined := by
    intro h
    rw [h] at htok
    simp [getProp] at htok
  obtain ⟨dfields, hdf⟩ := getProp_obj_of_ne_undefined _ _ (by rw [htok]; simp)
  have ht1 : (getProp (Json.obj fields) "data").truthy = true := by
    rw [hdf]; rfl
  have ht2 : (getProp (getProp (Json.obj fields) "data") "token").truthy = true := by
    rw [htok]; exact truthy_str tok hne
  constructor
  · simp [getAccessTokenFromN8n, unwrapResult, Json.isNullish, ht1, htok, truthy_str tok hne]
  · simp [getAccessTokenFromN8n, unwrapResult, Json.isNullish, ht1, htok, truthy_str tok hne]

/-- Witness of C18: the sample token response, bare and wrapped. -/
theorem token_is_extracted_witness :
    (getAccessTokenFromN8n (FetchResult.response true 200
      (Except.ok (Json.arr [Json.obj [("data", Json.obj [("token", Json.str "tok")])]])))
      Service.new).1.accessToken = some (Json.str "tok") :=
  congrArg (fun x => x.1.accessToken)
    (token_is_extracted Service.new 200 [("data", Json.obj [("token", Json.str "tok")])]
      "tok" rfl (by decide)).2

/-- C19 (counterexample): a success response whose body carries the nested
token field, holding the empty string, makes `getAccessTokenFromN8n` fail. -/
theorem empty_token_fails :
    getProp (getProp (Json.obj [("data", Json.obj [("token", Json.str "")])]) "data") "token" =
      Json.str "" ∧
    (getAccessTokenFromN8n emptyTokenResponse Service.new).2 =
      Except.error "Failed to get access token" := by
  exact ⟨rfl, rfl⟩

/-- C19 (amended): `getAccessTokenFromN8n` fails exactly when the `fetch` is
rejected, the response is not `ok`, its body does not parse, or the body (its
first element when it is an array) has no truthy `data.token`; a failed attempt
has sent exactly one token request and leaves no call parked for a retry. -/
theorem token_failure_iff (r : FetchResult) (s : Service) :
    ((∃ e, (getAccessTokenFromN8n r s).2 = Except.error e) ↔
      ((∃ e, r = FetchResult.failed e) ∨
       (∃ status body, r = FetchResult.response false status body) ∨
       (∃ status e, r = FetchResult.response true status (Except.error e)) ∨
       (∃ status result, r = FetchResult.response true status (Except.ok result) ∧
          ((getProp (unwrapResult result) "data").truthy &&
            (getProp (getProp (unwrapResult result) "data") "token").truthy) = false))) ∧
    (∀ (beh : Behaviour) (p : Nat) (e : String),
      s.isInitialized = false → s.isInitializing = false →
      (getAccessTokenFromN8n r { s with isInitializing := true }).2 = Except.error e →
      (run beh [Step.initializeAvatar p, Step.fetchSettled p r] (World.start s)).outbound =
        [Request.fetchToken] ∧
      (run beh [Step.initializeAvatar p, Step.fetchSettled p r] (World.start s)).pending =
        []) := by
  constructor
  · cases r with
    | failed e => simp [getAccessTokenFromN8n]
    | response ok status body =>
      cases ok with
      | false => simp [getAccessTokenFromN8n]
      | true =>
        cases body with
        | error e => simp [getAccessTokenFromN8n]
        | ok result =>
          have hn : (unwrapResult result).isNullish = true →
              (getProp (unwrapResult result) "data").truthy = false := by
            intro h
            cases hu : unwrapResult result <;> simp_all [Json.isNullish, getProp, Json.truthy]
          constructor
          · rintro ⟨e, he⟩
            refine Or.inr (Or.inr (Or.inr ⟨status, result, rfl, ?_⟩))
            by_contra hc
            have hc2 : ((getProp (unwrapResult result) "data").truthy &&
                (getProp (getProp (unwrapResult result) "data") "token").truthy) = true := by
              simpa using hc
            have hnn : (unwrapResult result).isNullish = false := by
              cases hx : (unwrapResult result).isNullish with
              | false => rfl
              | true =>
                have := hn hx
                simp [this] at hc2
            simp [getAccessTokenFromN8n, hnn, hc2] at he
          · rintro (⟨e, h⟩ | ⟨st, b, h⟩ | ⟨st, e, h⟩ | ⟨st, res, h, hc⟩)
            · cases h
            · cases h
            · cases h
            · cases h
              cases hres : (getAccessTokenFromN8n
                  (FetchResult.response true status (Except.ok result)) s).2 with
              | error e => exact ⟨e, rfl⟩
              | ok t =>
                exfalso
                simp only [getAccessTokenFromN8n] at hres
                split_ifs at hres
                simp_all
  · intro beh p e h1 h2 hr
    obtain ⟨av, sd, ini, ing, spk, ve, tok, ls⟩ := s
    simp only at h1 h2
    subst h1 h2
    have hpair := getAccessTokenFromN8n_error r _ e hr
    constructor
    all_goals
      simp [run_cons, run_nil, step, initializeAvatar, World.start, isInitFetch,
        InitCont.promise, resumeInitFetch, hpair, initCatch, settleInit, emit_outbound,
        emit_pending]

/-- Witness of the amended C19: a server error on a fresh service. -/
theorem token_failure_iff_witness :
    (run quiet [Step.initializeAvatar 1, Step.fetchSettled 1
      (FetchResult.response false 500 (Except.error "no body"))]
      (World.start Service.new)).outbound = [Request.fetchToken] :=
  ((token_failure_iff (FetchResult.response false 500 (Except.error "no body"))
    Service.new).2 quiet 1 "Failed to get token: 500" rfl rfl rfl).1


theorem listenersGet_foldl_onEvent (event : String) (cs : List CallbackId) (s : Service) :
    ((listenersGet (cs.foldl (fun acc c => onEvent event c acc) s).listeners event).getD []
        = (listenersGet s.listeners event).getD [] ++ cs) ∧
    (∀ other, other ≠ event →
      listenersGet (cs.foldl (fun acc c => onEvent event c acc) s).listeners other
        = listenersGet s.listeners other) := by
  induction cs generalizing s with
  | nil => simp
  | cons c cs ih =>
    obtain ⟨i1, i2⟩ := ih (onEvent event c s)
    simp only [List.foldl_cons]
    constructor
    · rw [i1, listenersGet_onEvent]
      simp
    · intro other ho
      rw [i2 other ho, listenersGet_onEvent]
      simp [ho]

/-- C20 (counterexample): listener 1, which unregisters itself when called, is
registered twice; `emit` invokes it once. -/
theorem registered_twice_invoked_once :
    listenersGet registeredTwice.svc.listeners "stream:ready" = some [1, 1] ∧
    (emit selfRemoving "stream:ready" (Payload.event "a") registeredTwice).invoked =
      [(1, Payload.event "a")] := by
  decide

/-- C20 (amended): `on(event, callback)` puts the callback at the end of the list of its
event, whether or not it is there already, leaves the lists of all other
events and every other field alone; so after registering the callbacks `cs`
for an event, `emit` of that event calls the earlier listeners and then `cs` in
registration order, once per registration and nothing else (for listeners that
do not call `off` for the event while it runs). -/
theorem on_appends_and_emit_follows_order (beh : Behaviour) (s : Service) (event : String) :
    (∀ (c : CallbackId) (other : String),
      listenersGet (onEvent event c s).listeners other =
        if other = event then some ((listenersGet s.listeners event).getD [] ++ [c])
        else listenersGet s.listeners other) ∧
    (∀ (c : CallbackId),
      { onEvent event c s with listeners := [] } = { s with listeners := [] }) ∧
    (∀ (cs : List CallbackId) (data : Payload), NoOff beh event →
      (emit beh event data
          (World.start (cs.foldl (fun acc c => onEvent event c acc) s))).invoked =
        ((listenersGet s.listeners event).getD [] ++ cs).map (fun cb => (cb, data))) := by
  refine ⟨fun c other => listenersGet_onEvent s event other c, fun c => onEvent_frame event c s,
    ?_⟩
  intro cs data hno
  rw [(emit_noOff beh event data _ hno).1]
  simp [World.start, (listenersGet_foldl_onEvent event cs s).1]

/-- Witness of the amended C20: listener 5 registered twice and listener 6 once on a fresh
service; a listener of another event is not called. -/
theorem on_appends_and_emit_follows_order_witness :
    (emit quiet "stream:ready" (Payload.event "a")
      (World.start ([5, 6, 5].foldl (fun acc c => onEvent "stream:ready" c acc)
        (onEvent "avatar:error" 9 Service.new)))).invoked =
      [(5, Payload.event "a"), (6, Payload.event "a"), (5, Payload.event "a")] :=
  (on_appends_and_emit_follows_order quiet (onEvent "avatar:error" 9 Service.new)
    "stream:ready").2.2 [5, 6, 5] (Payload.event "a") (quiet_noOff "stream:ready")

end HeyGenService

namespace AvatarDisplay

/-- C30: applying the green removal to a buffer it has already been applied to
changes nothing, and the pass never changes the length of the buffer. -/
theorem removeGreen_idempotent (data : List Nat) :
    removeGreen (removeGreen data) = removeGreen data ∧
    (removeGreen data).length = data.length := by
  refine ⟨?_, removeGreen_length data⟩
  induction data using removeGreen.induct with
  | case1 r g b a rest ih =>
    simp only [removeGreen, ih]
    by_cases h : (decide (g > 90) && decide (r < 90) && decide (b < 90)) = true <;> simp [h]
  | case2 rest h =>
    have : removeGreen rest = rest := by
      unfold removeGreen
      split
      · exact absurd rfl (h _ _ _ _ _)
      · rfl
    rw [this, this]

theorem cleanup_of_no_requests (c : Compositor) (h : c.requests = []) : cleanup c = c := by
  obtain ⟨v, vw, vh, rs, cv, w, ht, ref, rq, nh, ml, fr⟩ := c
  simp only at h
  subst h
  unfold cleanup cancelAnimationFrame
  cases ref with
  | none => rfl
  | some handle => by_cases hz : handle = 0 <;> simp [hz]

/-- C22: the cleanup that cancels the loop changes nothing when
`animationFrameRef.current` was never set (no loop was started) or when no
animation-frame callback is waiting (the loop was already cancelled), and
running it twice is the same as running it once. -/
theorem cleanup_idempotent (c : Compositor) :
    (c.animationFrameRef = none → cleanup c = c) ∧
    (c.requests = [] → cleanup c = c) ∧
    cleanup (cleanup c) = cleanup c := by
  refine ⟨?_, cleanup_of_no_requests c, ?_⟩
  · intro h
    simp [cleanup, h]
  · unfold cleanup cancelAnimationFrame
    cases href : c.animationFrameRef with
    | none => simp [href]
    | some handle =>
      by_cases hz : handle = 0
      · simp [hz, href]
      · simp [hz, href, List.filter_filter]

/-- Witness of C22: the cleanup on a component that never started a loop, and
a second cleanup after the loop was started and stopped. -/
theorem cleanup_idempotent_witness :
    cleanup (Compositor.mount playingVideo 640 480 4) = Compositor.mount playingVideo 640 480 4 ∧
    cleanup (cleanup (greenScreenEffect (Compositor.mount playingVideo 640 480 4))) =
      cleanup (greenScreenEffect (Compositor.mount playingVideo 640 480 4)) :=
  ⟨(cleanup_idempotent (Compositor.mount playingVideo 640 480 4)).1 rfl,
   (cleanup_idempotent (cleanup (greenScreenEffect (Compositor.mount playingVideo 640 480 4)))).2.1
     rfl⟩

theorem startedAfterStop_state (n : Nat) :
    (startedAfterStop n).frames = n + 1 ∧ (startedAfterStop n).requests = [n + 1] ∧
    (startedAfterStop n).animationFrameRef = some (n + 1) ∧
    (startedAfterStop n).nextHandle = n + 2 := by
  induction n with
  | zero => decide
  | succ n ih =>
    obtain ⟨h1, h2, h3, h4⟩ := ih
    have hs : startedAfterStop (n + 1) =
        animationFrame ((startedAfterStop n).animationFrameRef.getD 0) (startedAfterStop n) := by
      simp only [startedAfterStop, refreshes, Function.iterate_succ_apply']
    rw [hs, h3]
    simp [animationFrame, frame, h1, h2, h4]

/-- C23 (the code at the failing input): the effect ran before the video had
metadata and only added a `loadedmetadata` listener; the cleanup found nothing
to cancel; when the metadata arrives afterwards the loop starts, and after `n`
further refresh opportunities `processFrame` has run `n + 1` times with one
more callback waiting. -/
theorem loop_starts_after_cleanup (n : Nat) :
    (cleanup (greenScreenEffect (Compositor.mount
      { paused := false, ended := false, frame := [] } 640 480 0))).requests = [] ∧
    (startedAfterStop n).frames = n + 1 ∧
    (startedAfterStop n).requests = [n + 1] :=
  ⟨by decide, (startedAfterStop_state n).1, (startedAfterStop_state n).2.1⟩

/-- C24 (counterexample): the loop was started on a 640 by 480 source; after
the source has switched to 1280 by 720 and the next iteration has run, the
canvas is still 640 by 480. -/
theorem canvas_size_not_followed :
    resizedWhileRunning.videoWidth = 1280 ∧ resizedWhileRunning.videoHeight = 720 ∧
    resizedWhileRunning.frames = 2 ∧
    resizedWhileRunning.width = 640 ∧ resizedWhileRunning.height = 480 := by
  decide

/-- C24 (amended): starting the loop on a source that is ready sizes the
canvas to the source's dimensions of that moment, and no iteration of the loop
changes the canvas size, whatever the source's dimensions have become. -/
theorem canvas_sized_at_start_only (c : Compositor) :
    (c.readyState ≥ 2 →
      (greenScreenEffect c).width = c.videoWidth ∧
      (greenScreenEffect c).height = c.videoHeight) ∧
    (∀ handle, (animationFrame handle c).width = c.width ∧
      (animationFrame handle c).height = c.height) ∧
    (∀ n, (refreshes n c).width = c.width ∧ (refreshes n c).height = c.height) := by
  have hstep : ∀ (x : Compositor) handle, (animationFrame handle x).width = x.width ∧
      (animationFrame handle x).height = x.height := by
    intro x handle
    unfold animationFrame
    split <;> simp [frame]
  refine ⟨?_, hstep c, ?_⟩
  · intro h
    simp [greenScreenEffect, h, frame, setupCanvas]
  · intro n
    induction n with
    | zero => simp [refreshes]
    | succ n ih =>
      have hs : refreshes (n + 1) c =
          animationFrame ((refreshes n c).animationFrameRef.getD 0) (refreshes n c) := by
        simp only [refreshes, Function.iterate_succ_apply']
      rw [hs]
      obtain ⟨a, b⟩ := hstep (refreshes n c) ((refreshes n c).animationFrameRef.getD 0)
      exact ⟨a.trans ih.1, b.trans ih.2⟩

/-- Witness of the amended C24: a ready 640 by 480 source. -/
theorem canvas_sized_at_start_only_witness :
    (greenScreenEffect (Compositor.mount playingVideo 640 480 4)).width = 640 :=
  ((canvas_sized_at_start_only (Compositor.mount playingVideo 640 480 4)).1 (by decide)).1

end AvatarDisplay

namespace ChatService

open HeyGenService

/-- C29 (the code at the failing input): with `message1` to `message10` in
`split_json`, the reply lists `message10` right after `message1`, before
`message2`: the keys are sorted as strings. -/
theorem ten_messages_out_of_order (jsonParse : String → Except String Json) :
    parseN8nMessages jsonParse tenMessages =
      Json.arr [Json.str "one", Json.str "ten", Json.str "two", Json.str "three",
        Json.str "four", Json.str "five", Json.str "six", Json.str "seven",
        Json.str "eight", Json.str "nine"] ∧
    parseN8nMessages jsonParse twoMessages = Json.arr [Json.str "one", Json.str "two"] :=
  ⟨rfl, rfl⟩

end ChatService

namespace HeyGenService

theorem indexOf_first (c : CallbackId) (pre post : List CallbackId) (h : c ∉ pre) :
    (pre ++ c :: post).indexOf c = pre.length := by
  induction pre with
  | nil => simp
  | cons x xs ih =>
    have hx : x ≠ c := fun e => h (by simp [e])
    have hxs : c ∉ xs := fun m => h (List.mem_cons_of_mem _ m)
    simp [List.indexOf_cons, hx, ih hxs]

theorem eraseIdx_first (pre post : List CallbackId) (c : CallbackId) :
    (pre ++ c :: post).eraseIdx pre.length = pre ++ post := by
  induction pre with
  | nil => simp
  | cons x xs ih => simpa using ih

theorem indexOf_absent (c : CallbackId) (L : List CallbackId) (h : c ∉ L) :
    ¬ L.indexOf c < L.length := by
  rw [List.indexOf_lt_length]
  exact h

/-- C21: `off(event, callback)` removes the first entry equal to the callback
from the list of the event and nothing else: the entries before and after it,
later duplicates included, keep their order, the lists of other events and the
other fields are untouched; when the callback is not in the list, or the event
has no list, nothing changes. -/
theorem off_removes_first_entry (s : Service) (event : String) (c : CallbackId) :
    (∀ pre post, listenersGet s.listeners event = some (pre ++ c :: post) → c ∉ pre →
      listenersGet (offEvent event c s).listeners event = some (pre ++ post)) ∧
    (∀ other, other ≠ event →
      listenersGet (offEvent event c s).listeners other = listenersGet s.listeners other) ∧
    { offEvent event c s with listeners := [] } = { s with listeners := [] } ∧
    (∀ L, listenersGet s.listeners event = some L → c ∉ L → offEvent event c s = s) ∧
    (listenersGet s.listeners event = none → offEvent event c s = s) := by
  refine ⟨?_, fun other h => listenersGet_offEvent_ne s event other c h,
    offEvent_frame event c s, ?_, ?_⟩
  · intro pre post hL hpre
    unfold offEvent
    simp only [hL, indexOf_first c pre post hpre, eraseIdx_first]
    have : pre.length < (pre ++ c :: post).length := by simp
    simp [this, listenersGet_set]
  · intro L hL hc
    unfold offEvent
    simp only [hL]
    simp [indexOf_absent c L hc]
  · intro h
    unfold offEvent
    simp [h]

/-- Witness of C21: listener 5 is registered twice with 6 in between; `off`
drops the first 5 only. -/
theorem off_removes_first_entry_witness :
    listenersGet (offEvent "stream:ready" 5
      { Service.new with listeners := [("stream:ready", [4, 5, 6, 5])] }).listeners
      "stream:ready" = some ([4] ++ [6, 5]) :=
  (off_removes_first_entry { Service.new with listeners := [("stream:ready", [4, 5, 6, 5])] }
    "stream:ready" 5).1 [4] [6, 5] rfl (by decide)

/-- C25 (the code at the failing input): a video element bound after the
stream-ready event is stored as it was handed in, without the stream and
without a `play()` call; the service keeps no reference to the stream, and
`setVideoElement` only assigns the field. -/
theorem sink_bound_late_gets_no_stream :
    (step quiet (Step.streamReady
        { detail := some (StreamValue.mediaStream "stream-1"), stream := none })
      (World.start readyWithVideo)).svc.videoElement =
      some { id := 1, srcObject := some "stream-1", playCalls := 2 } ∧
    boundAfterStreamReady.svc.videoElement =
      some { id := 2, srcObject := none, playCalls := 0 } ∧
    (∀ (beh : Behaviour) (element : VideoElement) (w : World),
      step beh (Step.setVideoElement element) w =
        { w with svc := { w.svc with videoElement := some element } }) :=
  ⟨by decide, by decide, fun _ _ _ => rfl⟩


theorem runActions_passive (acts : List Action) (w : World)
    (h : ∀ a, a ∈ acts → ∃ message, a = Action.raise message) :
    (runActions acts w).world = w := by
  cases acts with
  | nil => rfl
  | cons a rest =>
    obtain ⟨m, hm⟩ := h a (List.mem_cons_self _ _)
    subst hm
    rfl

theorem forEach_passive (beh : Behaviour) (hp : Passive beh) (event : String) (data : Payload)
    (n k : Nat) (w : World) :
    (forEach beh event data n k w).world.svc.listeners = w.svc.listeners := by
  induction n generalizing k w with
  | zero => simp [forEach]
  | succ n ih =>
    cases h : ((listenersGet w.svc.listeners event).getD []).get? k with
    | none => rw [forEach_none _ _ _ _ _ _ h]; exact ih _ _
    | some cb =>
      rw [forEach_some _ _ _ _ _ _ _ h, ih]
      unfold callback
      rw [runActions_passive _ _ (hp cb)]

theorem emit_listeners_passive (beh : Behaviour) (hp : Passive beh) (event : String)
    (data : Payload) (w : World) :
    (emit beh event data w).svc.listeners = w.svc.listeners := by
  unfold emit emitCompletion
  simp only []
  split
  · rfl
  · exact forEach_passive beh hp event data _ 0 _

theorem quiet_passive : Passive quiet := by
  intro cb a h
  simp [quiet] at h

/-- C26: the start-talking signal sets `isSpeaking` and emits
`avatar:start-talking` exactly once; the stop-talking signal clears
`isSpeaking` and emits `avatar:stop-talking` exactly once; both leave
`isReady()`, the session data, the avatar instance, the bound video element
and the initialisation flags as they were and send nothing, and the listener
map is unchanged when the listeners called only return or throw. -/
theorem talking_signals_toggle_speaking (beh : Behaviour) (event : String) (w : World) :
    ((step beh (Step.avatarStartTalking event) w).svc.isSpeaking = true ∧
      (step beh (Step.avatarStartTalking event) w).emitted =
        w.emitted ++ [("avatar:start-talking", Payload.event event)] ∧
      isReady (step beh (Step.avatarStartTalking event) w).svc = isReady w.svc ∧
      (step beh (Step.avatarStartTalking event) w).svc.sessionData = w.svc.sessionData ∧
      (step beh (Step.avatarStartTalking event) w).svc.avatar = w.svc.avatar ∧
      (step beh (Step.avatarStartTalking event) w).svc.videoElement = w.svc.videoElement ∧
      (step beh (Step.avatarStartTalking event) w).svc.isInitializing =
        w.svc.isInitializing ∧
      (step beh (Step.avatarStartTalking event) w).outbound = w.outbound ∧
      (Passive beh →
        (step beh (Step.avatarStartTalking event) w).svc.listeners = w.svc.listeners)) ∧
    ((step beh (Step.avatarStopTalking event) w).svc.isSpeaking = false ∧
      (step beh (Step.avatarStopTalking event) w).emitted =
        w.emitted ++ [("avatar:stop-talking", Payload.event event)] ∧
      isReady (step beh (Step.avatarStopTalking event) w).svc = isReady w.svc ∧
      (step beh (Step.avatarStopTalking event) w).svc.sessionData = w.svc.sessionData ∧
      (step beh (Step.avatarStopTalking event) w).svc.avatar = w.svc.avatar ∧
      (step beh (Step.avatarStopTalking event) w).svc.videoElement = w.svc.videoElement ∧
      (step beh (Step.avatarStopTalking event) w).svc.isInitializing =
        w.svc.isInitializing ∧
      (step beh (Step.avatarStopTalking event) w).outbound = w.outbound ∧
      (Passive beh →
        (step beh (Step.avatarStopTalking event) w).svc.listeners = w.svc.listeners)) := by
  refine ⟨⟨?_, ?_, ?_, ?_, ?_, ?_, ?_, ?_, ?_⟩, ⟨?_, ?_, ?_, ?_, ?_, ?_, ?_, ?_, ?_⟩⟩
  all_goals first
    | (intro hp
       simp [step, onAvatarStartTalking, onAvatarStopTalking, emit_listeners_passive beh hp])
    | simp [step, onAvatarStartTalking, onAvatarStopTalking, isReady, emit_emitted,
        emit_outbound, emit_isInitialized, emit_isInitializing, emit_sessionData,
        emit_isSpeaking, emit_videoElement, emit_avatar]

/-- Witness of C26: the start-talking signal on the ready sample service with
quiet listeners. -/
theorem talking_signals_toggle_speaking_witness :
    (step quiet (Step.avatarStartTalking "talking") (World.start readyService)).svc.listeners =
      (World.start readyService).svc.listeners :=
  (talking_signals_toggle_speaking quiet "talking" (World.start readyService)).1.2.2.2.2.2.2.2.2
    quiet_passive


theorem objGet_nil (k : String) : objGet [] k = Json.undefined := rfl

theorem objGet_cons (x : String × Json) (xs : List (String × Json)) (k : String) :
    objGet (x :: xs) k = if x.1 = k then x.2 else objGet xs k := by
  by_cases h : x.1 = k <;> simp [objGet, List.find?_cons, h]

theorem objGet_map_set (fields : List (String × Json)) (k k' : String) (v : Json) :
    objGet (fields.map (fun f => if f.1 == k then (f.1, v) else f)) k' =
      if k' = k then (if fields.any (fun f => f.1 == k) then v else Json.undefined)
      else objGet fields k' := by
  induction fields with
  | nil => simp [objGet_nil]
  | cons x xs ih =>
    simp only [List.map_cons, objGet_cons, ih, List.any_cons]
    by_cases hx : x.1 = k
    · by_cases he : k' = k
      · simp [hx, he]
      · have : ¬ k = k' := fun e => he e.symm
        simp [hx, he, this]
    · have hb : (x.1 == k) = false := by simpa using hx
      by_cases he : k' = k
      · have : ¬ x.1 = k' := fun e => hx (e.trans he)
        simp [hx, he, this]
        simp only [hb, Bool.false_or]
      · simp [hx, he, hb]

theorem objGet_append_single (fields : List (String × Json)) (k k' : String) (v : Json)
    (h : fields.any (fun f => f.1 == k) = false) :
    objGet (fields ++ [(k, v)]) k' = if k' = k then v else objGet fields k' := by
  induction fields with
  | nil =>
    by_cases he : k' = k
    · simp [objGet_cons, he]
    · have : ¬ k = k' := fun x => he x.symm
      simp [objGet_cons, objGet_nil, he, this]
  | cons x xs ih =>
    simp only [List.any_cons, Bool.or_eq_false_iff] at h
    have hx : ¬ x.1 = k := by simpa using h.1
    simp only [List.cons_append, objGet_cons, ih h.2]
    by_cases he : k' = k
    · subst he
      simp [hx]
    · simp [he]

theorem objGet_objSet (fields : List (String × Json)) (k k' : String) (v : Json) :
    objGet (objSet fields k v) k' = if k' = k then v else objGet fields k' := by
  unfold objSet
  split
  · rename_i h
    rw [objGet_map_set]
    simp [h]
  · rename_i h
    exact objGet_append_single fields k k' v ((Bool.not_eq_true _).mp h)

theorem objGet_foldl_objSet (options : List (String × Json)) (k : String)
    (h : ∀ f, f ∈ options → f.1 ≠ k) (base : List (String × Json)) :
    objGet (options.foldl (fun acc f => objSet acc f.1 f.2) base) k = objGet base k := by
  induction options generalizing base with
  | nil => rfl
  | cons x xs ih =>
    simp only [List.foldl_cons]
    rw [ih (fun f hf => h f (List.mem_cons_of_mem _ hf)), objGet_objSet]
    have : ¬ k = x.1 := fun e => h x (List.mem_cons_self _ _) e.symm
    simp [this]

theorem objGet_foldl_objSet_last (options : List (String × Json)) (k : String)
    (base : List (String × Json)) :
    objGet (options.foldl (fun acc f => objSet acc f.1 f.2) base) k =
      ((options.reverse.find? (fun f => f.1 == k)).map (fun f => f.2)).getD (objGet base k) := by
  induction options generalizing base with
  | nil => rfl
  | cons x xs ih =>
    simp only [List.foldl_cons, List.reverse_cons, List.find?_append]
    rw [ih, objGet_objSet]
    cases List.find? (fun f => f.1 == k) xs.reverse with
    | some f => rfl
    | none =>
      by_cases hx : x.1 = k
      · simp [List.find?_cons, hx]
      · have : ¬ k = x.1 := fun e => hx e.symm
        simp [List.find?_cons, hx, this]

/-- C27 (counterexample): an `options` argument that itself carries `text`,
`task_type` or `taskMode` replaces that field of the request. -/
theorem options_override_text :
    objGet (speakOptions "hello" [("text", Json.str "bye")]) "text" = Json.str "bye" ∧
    objGet (speakOptions "hello" [("task_type", Json.str "talk")]) "task_type" =
      Json.str "talk" ∧
    objGet (speakOptions "hello" [("taskMode", Json.str "async")]) "taskMode" =
      Json.str "async" :=
  ⟨rfl, rfl, rfl⟩

/-- C27 (amended): when `options` has no `text`, `task_type` or `taskMode` key,
the request built by `speak(text, options)` has the text argument as `text`,
`TaskType.REPEAT` (the configured type) as `task_type` and `TaskMode.SYNC` as
`taskMode`; for every `options` with a truthy `emotion`, the request's
`voice.emotion` is that emotion; and for every `options` and every key other
than `voice`, the request holds what `options` last gives for that key, and
the default (`text`, `repeat`, `sync`, else nothing) when `options` lacks it. -/
theorem speak_request_fields (text : String) (options : List (String × Json)) :
    ((∀ f, f ∈ options → f.1 ≠ "text" ∧ f.1 ≠ "task_type" ∧ f.1 ≠ "taskMode") →
      objGet (speakOptions text options) "text" = Json.str text ∧
      objGet (speakOptions text options) "task_type" = TaskType.REPEAT ∧
      objGet (speakOptions text options) "taskMode" = TaskMode.SYNC) ∧
    ((objGet options "emotion").truthy = true →
      getProp (objGet (speakOptions text options) "voice") "emotion" =
        objGet options "emotion") ∧
    (∀ k, k ≠ "voice" →
      objGet (speakOptions text options) k =
        ((options.reverse.find? (fun f => f.1 == k)).map (fun f => f.2)).getD
          (objGet [("text", Json.str text), ("task_type", Json.str "repeat"),
            ("taskMode", Json.str "sync")] k)) := by
  refine ⟨?_, ?_, ?_⟩
  · intro h
    have h1 := objGet_foldl_objSet options "text" (fun f hf => (h f hf).1)
      [("text", Json.str text), ("task_type", TaskType.REPEAT), ("taskMode", TaskMode.SYNC)]
    have h2 := objGet_foldl_objSet options "task_type" (fun f hf => (h f hf).2.1)
      [("text", Json.str text), ("task_type", TaskType.REPEAT), ("taskMode", TaskMode.SYNC)]
    have h3 := objGet_foldl_objSet options "taskMode" (fun f hf => (h f hf).2.2)
      [("text", Json.str text), ("task_type", TaskType.REPEAT), ("taskMode", TaskMode.SYNC)]
    have hc : (chatConfig.heygen.taskType == "talk") = false := by decide
    unfold speakOptions
    simp only [hc]
    split
    · simp only [objGet_objSet]
      refine ⟨?_, ?_, ?_⟩
      · simpa using h1
      · simpa using h2
      · simpa using h3
    · exact ⟨by simpa using h1, by simpa using h2, by simpa using h3⟩
  · intro he
    unfold speakOptions
    simp only [he, if_true, objGet_objSet, getProp]
  · intro k hk
    have hc : (chatConfig.heygen.taskType == "talk") = false := by decide
    have hl := objGet_foldl_objSet_last options k
      [("text", Json.str text), ("task_type", TaskType.REPEAT), ("taskMode", TaskMode.SYNC)]
    unfold speakOptions
    simp only [hc]
    split
    · rw [objGet_objSet, if_neg hk]
      exact hl
    · exact hl

/-- Witness of the amended C27: `speak("hello", { emotion: "friendly" })`. -/
theorem speak_request_fields_witness :
    objGet (speakOptions "hello" [("emotion", Json.str "friendly")]) "text" =
      Json.str "hello" ∧
    getProp (objGet (speakOptions "hello" [("emotion", Json.str "friendly")]) "voice")
      "emotion" = objGet [("emotion", Json.str "friendly")] "emotion" :=
  ⟨((speak_request_fields "hello" [("emotion", Json.str "friendly")]).1
      (by intro f hf; simp at hf; subst hf; decide)).1,
   (speak_request_fields "hello" [("emotion", Json.str "friendly")]).2.1 (by decide)⟩


theorem speakCatch_session (beh : Behaviour) (p : Nat) (e : String) (w : World) :
    (speakCatch beh p e w).svc.isInitialized = w.svc.isInitialized ∧
    (speakCatch beh p e w).svc.sessionData = w.svc.sessionData := by
  simp [speakCatch, emit_isInitialized, emit_sessionData]

theorem speakBody_session (beh : Behaviour) (p : Nat) (text : String)
    (options : List (String × Json)) (w : World) :
    (speakBody beh p text options w).svc.isInitialized = w.svc.isInitialized ∧
    (speakBody beh p text options w).svc.sessionData = w.svc.sessionData := by
  unfold speakBody
  split
  · exact speakCatch_session beh p _ w
  · exact ⟨rfl, rfl⟩

theorem settleInit_session (beh : Behaviour) (k : InitCont) (o : Outcome) (w : World) :
    (settleInit beh k o w).svc.isInitialized = w.svc.isInitialized ∧
    (settleInit beh k o w).svc.sessionData = w.svc.sessionData := by
  unfold settleInit
  split
  · exact ⟨rfl, rfl⟩
  · split
    · exact ⟨rfl, rfl⟩
    · exact speakBody_session beh _ _ _ w

theorem initCatch_session (beh : Behaviour) (k : InitCont) (e : String) (w : World) :
    (initCatch beh k e w).svc.isInitialized = w.svc.isInitialized ∧
    (initCatch beh k e w).svc.sessionData = w.svc.sessionData := by
  unfold initCatch
  obtain ⟨h1, h2⟩ := settleInit_session beh k (Outcome.rejected e)
    (emit beh "avatar:error" (Payload.error e)
      { w with svc := { w.svc with isInitializing := false } })
  exact ⟨h1.trans (by simp [emit_isInitialized]), h2.trans (by simp [emit_sessionData])⟩

theorem initializeAvatar_session (beh : Behaviour) (k : InitCont) (w : World) :
    (initializeAvatar beh k w).svc.isInitialized = w.svc.isInitialized ∧
    (initializeAvatar beh k w).svc.sessionData = w.svc.sessionData := by
  unfold initializeAvatar
  split
  · exact settleInit_session beh k _ w
  · split <;> exact ⟨rfl, rfl⟩

theorem resumeInitFetch_session (beh : Behaviour) (k : InitCont) (r : FetchResult) (w : World) :
    (resumeInitFetch beh k r w).svc.isInitialized = w.svc.isInitialized ∧
    (resumeInitFetch beh k r w).svc.sessionData = w.svc.sessionData := by
  unfold resumeInitFetch
  cases hres : (getAccessTokenFromN8n r w.svc).2 with
  | error e =>
    rw [getAccessTokenFromN8n_error r w.svc e hres]
    exact initCatch_session beh k e _
  | ok token =>
    rw [getAccessTokenFromN8n_ok r w.svc token hres]
    simp [setupEventListeners]

/-- The one relation between the flags that every turn keeps: a service
counted as initialised has its session data. -/
theorem step_keeps_session_data (beh : Behaviour) (st : Step) (w : World)
    (h : w.svc.isInitialized = true → w.svc.sessionData.isSome = true) :
    (step beh st w).svc.isInitialized = true →
      (step beh st w).svc.sessionData.isSome = true := by
  cases st with
  | initializeAvatar p =>
    obtain ⟨a, b⟩ := initializeAvatar_session beh (InitCont.caller p) w
    simp only [step, a, b]
    exact h
  | speak p text options =>
    simp only [step, speak]
    split
    · obtain ⟨a, b⟩ := initializeAvatar_session beh (InitCont.speak p text options) w
      rw [a, b]
      exact h
    · obtain ⟨a, b⟩ := speakBody_session beh p text options w
      rw [a, b]
      exact h
  | fetchSettled p r =>
    simp only [step]
    split
    · obtain ⟨a, b⟩ := resumeInitFetch_session beh ‹_› r
        { w with pending := w.pending.eraseP (isInitFetch p) }
      rw [a, b]
      exact h
    · exact h
  | createSettled p r =>
    simp only [step]
    split
    · cases r with
      | error e =>
        obtain ⟨a, b⟩ := initCatch_session beh ‹_› e
          { w with pending := w.pending.eraseP (isInitCreate p) }
        simp only [resumeInitCreate, a, b]
        exact h
      | ok info =>
        intro _
        simp only [resumeInitCreate]
        rw [(settleInit_session beh _ _ _).2, emit_sessionData]
        rfl
    · exact h
  | speakSettled p r =>
    simp only [step]
    split
    · cases r with
      | error e =>
        obtain ⟨a, b⟩ := speakCatch_session beh ‹_› e
          { w with pending := w.pending.eraseP (isSpeakSend p) }
        simp only [resumeSpeakSend, a, b]
        exact h
      | ok u => exact h
    · exact h
  | timer p =>
    simp only [step]
    split
    · unfold pollTick
      split
      · obtain ⟨a, b⟩ := settleInit_session beh ‹_›
          (Outcome.resolved (Value.session w.svc.sessionData))
          { w with pending := w.pending.eraseP (isInitPoll p) }
        simp only [Option.getD_some, a, b]
        exact h
      · exact h
    · exact h
  | avatarStartTalking event =>
    simp only [step, onAvatarStartTalking, emit_isInitialized, emit_sessionData]
    exact h
  | avatarStopTalking event =>
    simp only [step, onAvatarStopTalking, emit_isInitialized, emit_sessionData]
    exact h
  | streamDisconnected event =>
    simp [step, onStreamDisconnected, emit_isInitialized]
  | avatarError error =>
    simp only [step, onAvatarError, emit_isInitialized, emit_sessionData]
    exact h
  | interrupt p =>
    simp only [step, interrupt]
    split <;> exact h
  | interruptSettled p r =>
    simp only [step]
    split
    · cases r with
      | error e => exact h
      | ok u =>
        simp only [resumeInterrupt, emit_isInitialized, emit_sessionData]
        exact h
    · exact h
  | stopAvatar p =>
    simp only [step, stopAvatar]
    split
    · exact h
    · split
      · exact h
      · simp [stopCleanup, emit_isInitialized]
  | stopSettled p r =>
    simp only [step]
    split
    · cases r with
      | error e => exact h
      | ok u => simp [resumeStop, stopCleanup, emit_isInitialized]
    · exact h
  | setVideoElement element => exact h
  | streamReady event =>
    simp only [step, onStreamReady, emit_isInitialized, emit_sessionData]
    split <;> exact h

theorem run_keeps_session_data (beh : Behaviour) (steps : List Step) (w : World)
    (h : w.svc.isInitialized = true → w.svc.sessionData.isSome = true) :
    (run beh steps w).svc.isInitialized = true →
      (run beh steps w).svc.sessionData.isSome = true := by
  induction steps generalizing w with
  | nil => exact h
  | cons st rest ih =>
    rw [run_cons]
    exact ih _ (step_keeps_session_data beh st w h)


/-- C28 (counterexample): a disconnect arriving while the avatar is speaking,
and a start-talking signal arriving after a completed stop, both leave the
service speaking while `isReady()` is false. -/
theorem speaking_without_session :
    disconnectedWhileSpeaking.svc.isSpeaking = true ∧
    isReady disconnectedWhileSpeaking.svc = false ∧
    talkingAfterStop.svc.isSpeaking = true ∧
    talkingAfterStop.svc.sessionData = none ∧
    isReady talkingAfterStop.svc = false := by
  decide

/-- C28 (amended): in every world reached from a new service by any sequence of
turns, a service counted as initialised has its session data; the speaking
flag does not depend on the session: the start-talking signal sets it
whatever the state and leaves `isInitialized` alone, and the disconnect signal
clears `isInitialized` and leaves the speaking flag as it was. -/
theorem reachable_flags (beh : Behaviour) (steps : List Step) :
    ((run beh steps (World.start Service.new)).svc.isInitialized = true →
      (run beh steps (World.start Service.new)).svc.sessionData.isSome = true) ∧
    (∀ event,
      (step beh (Step.avatarStartTalking event)
        (run beh steps (World.start Service.new))).svc.isSpeaking = true ∧
      (step beh (Step.avatarStartTalking event)
        (run beh steps (World.start Service.new))).svc.isInitialized =
        (run beh steps (World.start Service.new)).svc.isInitialized) ∧
    (∀ event,
      (step beh (Step.streamDisconnected event)
        (run beh steps (World.start Service.new))).svc.isSpeaking =
        (run beh steps (World.start Service.new)).svc.isSpeaking ∧
      (step beh (Step.streamDisconnected event)
        (run beh steps (World.start Service.new))).svc.isInitialized = false) := by
  refine ⟨run_keeps_session_data beh steps _ (by intro h; cases h), ?_, ?_⟩
  · intro event
    simp [step, onAvatarStartTalking, emit_isSpeaking, emit_isInitialized]
  · intro event
    simp [step, onStreamDisconnected, emit_isSpeaking, emit_isInitialized]

/-- Witness of the amended C28: after a successful initialisation the session
data is stored. -/
theorem reachable_flags_witness :
    (run quiet [Step.initializeAvatar 1, Step.fetchSettled 1 tokenResponse,
      Step.createSettled 1 (Except.ok { session_id := "s-1" })]
      (World.start Service.new)).svc.sessionData.isSome = true :=
  (reachable_flags quiet [Step.initializeAvatar 1, Step.fetchSettled 1 tokenResponse,
    Step.createSettled 1 (Except.ok { session_id := "s-1" })]).1 rfl

end HeyGenService
